import Mathlib

/-!
Verification of the blackjack-trainer core (hand valuation, shoe, game engine,
card counter, basic/deviation strategy) against its natural-language
specification.  Each Python class or function of the source is embedded as an
executable Lean definition; floats used by the source for payouts, thresholds
and true counts are modelled as exact rationals, and Python exceptions are
modelled with `Except`, carrying the object state at raise time so that
partial mutation of the engine is observable.
-/

namespace Blackjack

/-- Card suits (`src/models/card.py`, `Suit`). -/
inductive Suit where
  | hearts | diamonds | clubs | spades
deriving DecidableEq, Repr

/-- Card ranks (`src/models/card.py`, `Rank`). -/
inductive Rank where
  | ace | two | three | four | five | six | seven | eight | nine | ten
  | jack | queen | king
deriving DecidableEq, Repr

/-- A playing card (`src/models/card.py`, `Card`). -/
structure Card where
  suit : Suit
  rank : Rank
deriving DecidableEq, Repr

/-- `Card.value(ace_as_eleven)` from `src/models/card.py`. -/
def Card.value (c : Card) (aceAsEleven : Bool) : Nat :=
  match c.rank with
  | .ace => if aceAsEleven then 11 else 1
  | .jack | .queen | .king => 10
  | .two => 2
  | .three => 3
  | .four => 4
  | .five => 5
  | .six => 6
  | .seven => 7
  | .eight => 8
  | .nine => 9
  | .ten => 10

/-- A hand is an ordered list of cards (`src/models/hand.py`, `Hand.cards`). -/
abbrev Hand := List Card

namespace Hand

/-- Initial total of `Hand.value`: every card counted with the ace as 11
(the accumulation loop in `Hand.value`, `src/models/hand.py` lines 32-41). -/
def rawTotal (cards : Hand) : Nat :=
  (cards.map fun c => if c.rank = .ace then 11 else c.value false).sum

/-- Number of aces accumulated by the loop in `Hand.value`. -/
def aceCount (cards : Hand) : Nat :=
  (cards.filter fun c => c.rank = .ace).length

/-- The demotion loop of `Hand.value` (`while total > 21 and aces > 0:
total -= 10; aces -= 1`): returns the final total. -/
def demoteLoop : Nat → Nat → Nat
  | total, 0 => total
  | total, aces + 1 => if 21 < total then demoteLoop (total - 10) aces else total

/-- The demotion loop of `Hand.is_soft`, returning how many aces are still
counted as 11 when the loop stops. -/
def demoteLoopAces : Nat → Nat → Nat
  | _, 0 => 0
  | total, aces + 1 => if 21 < total then demoteLoopAces (total - 10) aces else aces + 1

/-- `Hand.value()` from `src/models/hand.py`. -/
def value (cards : Hand) : Nat :=
  demoteLoop (rawTotal cards) (aceCount cards)

/-- `Hand.is_soft()` from `src/models/hand.py`. -/
def isSoft (cards : Hand) : Bool :=
  if cards.all (fun c => !(c.rank = .ace : Bool)) then false
  else 0 < demoteLoopAces (rawTotal cards) (aceCount cards)

/-- `Hand.is_blackjack()` from `src/models/hand.py`. -/
def isBlackjack (cards : Hand) : Bool :=
  cards.length = 2 && value cards = 21

/-- `Hand.is_bust()` from `src/models/hand.py`. -/
def isBust (cards : Hand) : Bool :=
  21 < value cards

/-- `Hand.can_split()` from `src/models/hand.py`. -/
def canSplit (cards : Hand) : Bool :=
  match cards with
  | [c1, c2] => c1.rank = c2.rank || c1.value false = c2.value false
  | _ => false

/-- `Hand.can_double()` from `src/models/hand.py`. -/
def canDouble (cards : Hand) : Bool :=
  cards.length = 2

/-- The sum of the non-ace values with every ace counted as 1: the minimum
ace assignment total. -/
def minTotal (cards : Hand) : Nat :=
  (cards.map fun c => c.value false).sum

theorem rawTotal_eq_minTotal_add (cards : Hand) :
    rawTotal cards = minTotal cards + 10 * aceCount cards := by
  induction cards with
  | nil => rfl
  | cons c cs ih =>
    have hr : rawTotal (c :: cs)
        = (if c.rank = .ace then 11 else c.value false) + rawTotal cs := by
      simp [rawTotal]
    have hm : minTotal (c :: cs) = c.value false + minTotal cs := by simp [minTotal]
    have ha : aceCount (c :: cs) = (if c.rank = .ace then 1 else 0) + aceCount cs := by
      by_cases h : c.rank = .ace
      · simp [aceCount, List.filter_cons, h]; omega
      · simp [aceCount, List.filter_cons, h]
    by_cases h : c.rank = .ace
    · have hv : c.value false = 1 := by simp [Card.value, h]
      rw [hr, hm, ha, hv, if_pos h, if_pos h, ih]; ring
    · rw [hr, hm, ha, if_neg h, if_neg h, ih]; ring

theorem demoteLoop_spec (a : Nat) : ∀ m : Nat,
    ((∃ j, j ≤ a ∧ m + 10 * j ≤ 21) → demoteLoop (m + 10 * a) a ≤ 21) ∧
    ((∀ j, j ≤ a → 21 < m + 10 * j) → demoteLoop (m + 10 * a) a = m) ∧
    (∃ j, j ≤ a ∧ demoteLoop (m + 10 * a) a = m + 10 * j) ∧
    (∀ j, j ≤ a → m + 10 * j ≤ 21 → m + 10 * j ≤ demoteLoop (m + 10 * a) a) := by
  induction a with
  | zero =>
    intro m
    refine ⟨fun ⟨j, hj, hle⟩ => ?_, fun _ => by simp [demoteLoop], ⟨0, by simp [demoteLoop]⟩,
      fun j hj hle => ?_⟩
    · interval_cases j; simpa [demoteLoop] using hle
    · interval_cases j; simp [demoteLoop]
  | succ a ih =>
    intro m
    by_cases h : 21 < m + 10 * (a + 1)
    · have hstep : demoteLoop (m + 10 * (a + 1)) (a + 1) = demoteLoop (m + 10 * a) a := by
        have h10 : m + 10 * (a + 1) - 10 = m + 10 * a := by omega
        simp [demoteLoop, h, h10]
      obtain ⟨ih1, ih2, ih3, ih4⟩ := ih m
      refine ⟨fun ⟨j, hj, hle⟩ => ?_, fun hbust => ?_, ?_, fun j hj hle => ?_⟩
      · rw [hstep]
        exact ih1 ⟨j, by omega, hle⟩
      · rw [hstep]
        exact ih2 fun j hj => hbust j (by omega)
      · obtain ⟨j, hj, hval⟩ := ih3
        exact ⟨j, by omega, by rw [hstep]; exact hval⟩
      · rw [hstep]
        exact ih4 j (by omega) hle
    · have hstep : demoteLoop (m + 10 * (a + 1)) (a + 1) = m + 10 * (a + 1) := by
        simp [demoteLoop, h]
      refine ⟨fun _ => by omega, fun hbust => absurd (hbust (a + 1) le_rfl) (by omega),
        ⟨a + 1, le_rfl, hstep⟩, fun j hj hle => by rw [hstep]; omega⟩

theorem demoteLoopAces_pos_imp (a : Nat) : ∀ t : Nat,
    0 < demoteLoopAces t a → demoteLoop t a ≤ 21 := by
  induction a with
  | zero => intro t h; simp [demoteLoopAces] at h
  | succ a ih =>
    intro t h
    by_cases hlt : 21 < t
    · simp only [demoteLoopAces, if_pos hlt] at h
      simp only [demoteLoop, if_pos hlt]
      exact ih _ h
    · simp only [demoteLoop, if_neg hlt]
      omega

end Hand

/-- Sample cards used by concrete witnesses and counterexamples. -/
def sAce : Card := ⟨.spades, .ace⟩

def hAce : Card := ⟨.hearts, .ace⟩

def sTwo : Card := ⟨.spades, .two⟩

def sThree : Card := ⟨.spades, .three⟩

def sFour : Card := ⟨.spades, .four⟩

def sFive : Card := ⟨.spades, .five⟩

def sSix : Card := ⟨.spades, .six⟩

def sSeven : Card := ⟨.spades, .seven⟩

def sEight : Card := ⟨.spades, .eight⟩

def sNine : Card := ⟨.spades, .nine⟩

def sTen : Card := ⟨.spades, .ten⟩

def hTen : Card := ⟨.hearts, .ten⟩

def sJack : Card := ⟨.spades, .jack⟩

def sQueen : Card := ⟨.spades, .queen⟩

def sKing : Card := ⟨.spades, .king⟩

def hKing : Card := ⟨.hearts, .king⟩

/-- C1: for every hand, whenever some assignment of 1 or 11 to each ace keeps
the total at most 21 (the achievable totals are exactly `minTotal + 10*j` for
`j ≤ aceCount`), `Hand.value` is at most 21, is itself one of the achievable
totals, and dominates every bust-avoiding achievable total (so it is the
maximum such total); when every assignment busts, `Hand.value` equals the
total with all aces counted as 1. -/
theorem hand_value_ace_minimization (cards : Hand) :
    ((∃ j, j ≤ Hand.aceCount cards ∧ Hand.minTotal cards + 10 * j ≤ 21) →
      Hand.value cards ≤ 21 ∧
      (∃ j, j ≤ Hand.aceCount cards ∧
        Hand.value cards = Hand.minTotal cards + 10 * j) ∧
      (∀ j, j ≤ Hand.aceCount cards → Hand.minTotal cards + 10 * j ≤ 21 →
        Hand.minTotal cards + 10 * j ≤ Hand.value cards)) ∧
    ((∀ j, j ≤ Hand.aceCount cards → 21 < Hand.minTotal cards + 10 * j) →
      Hand.value cards = Hand.minTotal cards) := by
  have h := Hand.demoteLoop_spec (Hand.aceCount cards) (Hand.minTotal cards)
  rw [Hand.value, Hand.rawTotal_eq_minTotal_add]
  exact ⟨fun hex => ⟨h.1 hex, h.2.2.1, h.2.2.2⟩, h.2.1⟩

/-- Witness for C1: a soft ace-nine hand stays at most 21, and a hand of
king-queen-ace-ace (whose every ace assignment busts) is valued with both
aces as 1. -/
theorem hand_value_ace_minimization_witness :
    Hand.value [sAce, sNine] ≤ 21 ∧
      Hand.value [sKing, sQueen, sAce, hAce] = Hand.minTotal [sKing, sQueen, sAce, hAce] := by
  constructor
  · exact ((hand_value_ace_minimization [sAce, sNine]).1 ⟨1, by decide, by decide⟩).1
  · refine (hand_value_ace_minimization [sKing, sQueen, sAce, hAce]).2 ?_
    intro j hj
    have hm : Hand.minTotal [sKing, sQueen, sAce, hAce] = 22 := by decide
    omega

/-- C10: a soft hand is never bust — if `is_soft()` returns true then
`value()` is at most 21, because an ace still counted as 11 means the
demotion loop stopped with the total at or below 21. -/
theorem soft_hand_le_21 (cards : Hand) (h : Hand.isSoft cards = true) :
    Hand.value cards ≤ 21 := by
  unfold Hand.isSoft at h
  split at h
  · exact absurd h (by simp)
  · simp only [decide_eq_true_eq] at h
    exact Hand.demoteLoopAces_pos_imp _ _ h

/-- Witness for C10: ace-six is soft and valued 17 ≤ 21. -/
theorem soft_hand_le_21_witness :
    Hand.isSoft [sAce, sSix] = true ∧ Hand.value [sAce, sSix] ≤ 21 :=
  ⟨by decide, soft_hand_le_21 [sAce, sSix] (by decide)⟩

/-- Errors raised by the core.  Each constructor corresponds to one distinct
`raise` site of the source (`GameLogicError` messages in `shoe.py`,
`RuntimeError` messages in `blackjack_game.py`). -/
inductive GameError where
  | penetrationReached
  | shoeEmpty
  | gameAlreadyStarted
  | shoeNeedsShuffle
  | gameIsOver
  | gameNotStarted
  | cannotDouble
  | cannotSurrender
deriving DecidableEq, Repr

/-- The shoe (`src/models/shoe.py`): remaining cards in deal order plus the
dealt-count, with the configuration needed to derive the reshuffle
threshold.  `cards` holds only the not-yet-dealt cards, as in the source
(dealt cards are popped from the list). -/
structure Shoe where
  numDecks : Nat
  penetration : ℚ
  cards : List Card
  cardsDealt : Nat
deriving DecidableEq, Repr

namespace Shoe

/-- `Shoe.total_cards`. -/
def totalCards (s : Shoe) : Nat := s.numDecks * 52

/-- `Shoe.penetration_threshold = int(total_cards * penetration)`
(truncation of a float; on the validated range the product is nonnegative,
so truncation and floor agree). -/
def penetrationThreshold (s : Shoe) : Nat :=
  (Int.floor ((s.totalCards : ℚ) * s.penetration)).toNat

/-- `Shoe.needs_shuffle()`. -/
def needsShuffle (s : Shoe) : Bool :=
  s.penetrationThreshold ≤ s.cardsDealt

/-- `Shoe.deal_card()`: checks penetration first, then emptiness, otherwise
pops the first card and increments the dealt count.  A failure returns only
the error — the source mutates nothing before raising. -/
def dealCard (s : Shoe) : Except GameError (Card × Shoe) :=
  if s.needsShuffle then .error .penetrationReached
  else
    match s.cards with
    | [] => .error .shoeEmpty
    | c :: rest => .ok (c, { s with cards := rest, cardsDealt := s.cardsDealt + 1 })

/-- `Shoe.shuffle()` with the random permutation made explicit: the caller
supplies the new ordering of the remaining cards; the dealt count resets
to 0. -/
def shuffleWith (s : Shoe) (newOrder : List Card) : Shoe :=
  { s with cards := newOrder, cardsDealt := 0 }

theorem dealCard_length_lt (s : Shoe) (c : Card) (s' : Shoe)
    (h : s.dealCard = .ok (c, s')) : s'.cards.length < s.cards.length := by
  unfold dealCard at h
  by_cases hn : s.needsShuffle
  · simp [hn] at h
  · match hc : s.cards with
    | [] => rw [hc] at h; simp [hn] at h
    | c0 :: rest =>
      rw [hc] at h
      simp only [hn, Bool.false_eq_true, if_false, Except.ok.injEq, Prod.mk.injEq] at h
      rw [← h.2]
      simp

end Shoe

/-- C8: `deal_card` fails with the penetration-reached error whenever the
dealt-count has reached `floor(total_cards * penetration)`; otherwise it
fails with the distinct shoe-empty error when no cards remain; otherwise it
returns the first remaining card and a shoe with the same configuration,
the remaining cards, and the dealt-count incremented by exactly 1.  Failures
return no new shoe, so a failed call leaves the shoe unchanged. -/
theorem shoe_dealCard_spec (s : Shoe) :
    (s.needsShuffle = true → s.dealCard = .error .penetrationReached) ∧
    (s.needsShuffle = false → s.cards = [] → s.dealCard = .error .shoeEmpty) ∧
    (∀ c rest, s.needsShuffle = false → s.cards = c :: rest →
      s.dealCard = .ok (c, { s with cards := rest, cardsDealt := s.cardsDealt + 1 })) := by
  refine ⟨fun h => ?_, fun h he => ?_, fun c rest h hc => ?_⟩
  · simp [Shoe.dealCard, h]
  · simp [Shoe.dealCard, h, he]
  · simp [Shoe.dealCard, h, hc]

/-- The reshuffle threshold of a one-deck, half-penetration shoe is 26. -/
theorem shoeHalf_threshold (cs : List Card) (d : Nat) :
    (Shoe.mk 1 (1/2) cs d).penetrationThreshold = 26 := by
  unfold Shoe.penetrationThreshold Shoe.totalCards
  norm_num
  decide

theorem shoeHalf_needsShuffle_26 (cs : List Card) :
    (Shoe.mk 1 (1/2) cs 26).needsShuffle = true := by
  unfold Shoe.needsShuffle
  rw [shoeHalf_threshold]
  rfl

theorem shoeHalf_needsShuffle_lt (cs : List Card) (d : Nat) (h : d < 26) :
    (Shoe.mk 1 (1/2) cs d).needsShuffle = false := by
  unfold Shoe.needsShuffle
  rw [shoeHalf_threshold]
  simpa using h

/-- Dealing from a one-deck, half-penetration shoe below its threshold. -/
theorem shoeHalf_deal (c : Card) (rest : List Card) (d : Nat) (h : d < 26) :
    Shoe.dealCard ⟨1, 1/2, c :: rest, d⟩ = .ok (c, ⟨1, 1/2, rest, d + 1⟩) :=
  (shoe_dealCard_spec _).2.2 c rest (shoeHalf_needsShuffle_lt _ _ h) rfl

/-- Witness for C8: a one-deck shoe at 50% penetration with 26 cards dealt
refuses to deal; a fresh one deals its first card. -/
theorem shoe_dealCard_spec_witness :
    (Shoe.dealCard ⟨1, 1/2, [sAce], 26⟩ = .error .penetrationReached) ∧
    (Shoe.dealCard ⟨1, 1/2, [], 0⟩ = .error .shoeEmpty) ∧
    (Shoe.dealCard ⟨1, 1/2, [sAce, sTwo], 0⟩ = .ok (sAce, ⟨1, 1/2, [sTwo], 1⟩)) := by
  refine ⟨(shoe_dealCard_spec _).1 (shoeHalf_needsShuffle_26 _),
    (shoe_dealCard_spec _).2.1 (shoeHalf_needsShuffle_lt _ _ (by omega)) rfl,
    (shoe_dealCard_spec _).2.2 sAce [sTwo] (shoeHalf_needsShuffle_lt _ _ (by omega)) rfl⟩

/-- Possible game outcomes (`src/models/game_result.py`, `Outcome`). -/
inductive Outcome where
  | win | loss | push | blackjack | surrender
deriving DecidableEq, Repr

/-- The result of a blackjack hand (`src/models/game_result.py`,
`GameResult`). -/
structure GameResult where
  outcome : Outcome
  playerTotal : Nat
  dealerTotal : Option Nat
  payout : ℚ
  playerBusted : Bool
  dealerBusted : Bool
  playerBlackjack : Bool
  dealerBlackjack : Bool
deriving DecidableEq, Repr

/-- `GameResult(...)` construction including `__post_init__`: bust flags are
set from the totals, the player-blackjack flag from the outcome, and the
caller-supplied payout is overridden only when it fails the per-outcome
validation check (`src/models/game_result.py` lines 37-60). -/
def mkGameResult (outcome : Outcome) (playerTotal : Nat) (dealerTotal : Option Nat)
    (payout : ℚ) (playerBusted dealerBusted playerBlackjack dealerBlackjack : Bool) :
    GameResult :=
  let playerBusted := if 21 < playerTotal then true else playerBusted
  let dealerBusted :=
    match dealerTotal with
    | some dt => if 21 < dt then true else dealerBusted
    | none => dealerBusted
  let playerBlackjack := if outcome = .blackjack then true else playerBlackjack
  let payout :=
    if outcome = .loss ∧ 0 ≤ payout then -1
    else if outcome = .win ∧ payout ≤ 0 then 1
    else if outcome = .blackjack ∧ payout ≤ 1 then 3/2
    else if outcome = .push ∧ payout ≠ 0 then 0
    else if outcome = .surrender ∧ payout ≠ -(1/2) then -(1/2)
    else payout
  ⟨outcome, playerTotal, dealerTotal, payout, playerBusted, dealerBusted,
    playerBlackjack, dealerBlackjack⟩

/-- The payout stored by `__post_init__`, characterized per outcome. -/
theorem mkGameResult_payout (o : Outcome) (pt : Nat) (dt : Option Nat) (p : ℚ)
    (pb db pbj dbj : Bool) :
    (mkGameResult o pt dt p pb db pbj dbj).payout =
      match o with
      | .loss => if 0 ≤ p then -1 else p
      | .win => if p ≤ 0 then 1 else p
      | .blackjack => if p ≤ 1 then 3/2 else p
      | .push => if p ≠ 0 then 0 else p
      | .surrender => if p ≠ -(1/2) then -(1/2) else p := by
  cases o <;> simp only [mkGameResult] <;> split_ifs <;> simp_all

/-- Counterexample for C3: a `GameResult` constructed with outcome Loss and a
caller-supplied payout of −2 (exactly what `player_double` does on a busted
double) keeps payout −2, so the constructed payout is not determined by the
outcome alone — the claim's table demands −1 for every Loss. -/
theorem gameResult_payout_not_determined_counterexample :
    (mkGameResult .loss 22 (some 20) (-2) true false false false).payout = -2 ∧
      (-2 : ℚ) ≠ -1 := by
  rw [mkGameResult_payout]
  norm_num

/-- C3 amended: construction normalizes the payout only when the supplied
value fails the outcome's sign check — Loss forces a negative payout
(default −1 when the supplied value is nonnegative, otherwise the supplied
value is kept), Win forces a positive payout (default 1), Blackjack forces a
payout above 1 (default 3/2), while Push and Surrender force exactly 0 and
−1/2.  So the sign is determined by the outcome but the magnitude can come
from the caller. -/
theorem gameResult_payout_sign (o : Outcome) (pt : Nat) (dt : Option Nat) (p : ℚ)
    (pb db pbj dbj : Bool) :
    (o = .loss → (mkGameResult o pt dt p pb db pbj dbj).payout < 0 ∧
      (0 ≤ p → (mkGameResult o pt dt p pb db pbj dbj).payout = -1) ∧
      (p < 0 → (mkGameResult o pt dt p pb db pbj dbj).payout = p)) ∧
    (o = .win → 0 < (mkGameResult o pt dt p pb db pbj dbj).payout ∧
      (p ≤ 0 → (mkGameResult o pt dt p pb db pbj dbj).payout = 1) ∧
      (0 < p → (mkGameResult o pt dt p pb db pbj dbj).payout = p)) ∧
    (o = .blackjack → 1 < (mkGameResult o pt dt p pb db pbj dbj).payout ∧
      (p ≤ 1 → (mkGameResult o pt dt p pb db pbj dbj).payout = 3/2) ∧
      (1 < p → (mkGameResult o pt dt p pb db pbj dbj).payout = p)) ∧
    (o = .push → (mkGameResult o pt dt p pb db pbj dbj).payout = 0) ∧
    (o = .surrender → (mkGameResult o pt dt p pb db pbj dbj).payout = -(1/2)) := by
  refine ⟨fun ho => ?_, fun ho => ?_, fun ho => ?_, fun ho => ?_, fun ho => ?_⟩ <;> subst ho
  · have hp : (mkGameResult .loss pt dt p pb db pbj dbj).payout
        = if 0 ≤ p then -1 else p := mkGameResult_payout .loss pt dt p pb db pbj dbj
    rw [hp]
    split_ifs with h
    · exact ⟨by norm_num, fun _ => rfl, fun hlt => absurd h (not_le.mpr hlt)⟩
    · exact ⟨not_le.mp h, fun hge => absurd hge h, fun _ => rfl⟩
  · have hp : (mkGameResult .win pt dt p pb db pbj dbj).payout
        = if p ≤ 0 then 1 else p := mkGameResult_payout .win pt dt p pb db pbj dbj
    rw [hp]
    split_ifs with h
    · exact ⟨by norm_num, fun _ => rfl, fun hlt => absurd h (not_le.mpr hlt)⟩
    · exact ⟨not_le.mp h, fun hle => absurd hle h, fun _ => rfl⟩
  · have hp : (mkGameResult .blackjack pt dt p pb db pbj dbj).payout
        = if p ≤ 1 then 3/2 else p := mkGameResult_payout .blackjack pt dt p pb db pbj dbj
    rw [hp]
    split_ifs with h
    · exact ⟨by norm_num, fun _ => rfl, fun hlt => absurd h (not_le.mpr hlt)⟩
    · exact ⟨not_le.mp h, fun hle => absurd hle h, fun _ => rfl⟩
  · have hp : (mkGameResult .push pt dt p pb db pbj dbj).payout
        = if p ≠ 0 then 0 else p := mkGameResult_payout .push pt dt p pb db pbj dbj
    rw [hp]
    split_ifs with h
    · rfl
    · exact not_not.mp h
  · have hp : (mkGameResult .surrender pt dt p pb db pbj dbj).payout
        = if p ≠ -(1/2) then -(1/2) else p
      := mkGameResult_payout .surrender pt dt p pb db pbj dbj
    rw [hp]
    split_ifs with h
    · rfl
    · exact not_not.mp h

/-- Witness for C3 amended: a Loss constructed with payout −2 stays strictly
negative, and one constructed with payout 0 is normalized to −1. -/
theorem gameResult_payout_sign_witness :
    (mkGameResult .loss 22 (some 20) (-2) true false false false).payout < 0 ∧
      (mkGameResult .loss 20 (some 21) 0 false false false false).payout = -1 := by
  constructor
  · exact ((gameResult_payout_sign .loss 22 (some 20) (-2) true false false false).1 rfl).1
  · exact ((gameResult_payout_sign .loss 20 (some 21) 0 false false false false).1
      rfl).2.1 (by norm_num)

/-- The Hi-Lo counting weights (`src/counting/hi_lo.py`). -/
def hiLoValue (c : Card) : Int :=
  match c.rank with
  | .two | .three | .four | .five | .six => 1
  | .seven | .eight | .nine => 0
  | .ten | .jack | .queen | .king | .ace => -1

/-- The card counter state (`src/counting/card_counter.py`); the counting
system is passed separately as a weight function. -/
structure CardCounter where
  numDecks : Nat
  runningCount : Int
  cardsSeen : Nat
deriving DecidableEq, Repr

namespace CardCounter

/-- `CardCounter.__init__` / `reset()`: both counters zero. -/
def init (numDecks : Nat) : CardCounter := ⟨numDecks, 0, 0⟩

/-- `CardCounter.update_count(card)`. -/
def updateCount (sys : Card → Int) (c : CardCounter) (card : Card) : CardCounter :=
  { c with runningCount := c.runningCount + sys card, cardsSeen := c.cardsSeen + 1 }

/-- `CardCounter.remaining_decks()`. -/
def remainingDecks (c : CardCounter) : ℚ :=
  (((c.numDecks * 52 : Nat) : ℚ) - (c.cardsSeen : ℚ)) / 52

/-- `CardCounter.true_count()`. -/
def trueCount (c : CardCounter) : ℚ :=
  if c.remainingDecks ≤ 0 then 0 else (c.runningCount : ℚ) / c.remainingDecks

theorem foldl_updateCount (sys : Card → Int) (cards : List Card) : ∀ c0 : CardCounter,
    (cards.foldl (updateCount sys) c0).runningCount
        = c0.runningCount + (cards.map sys).sum ∧
      (cards.foldl (updateCount sys) c0).cardsSeen = c0.cardsSeen + cards.length ∧
      (cards.foldl (updateCount sys) c0).numDecks = c0.numDecks := by
  induction cards with
  | nil => intro c0; simp
  | cons c cs ih =>
    intro c0
    obtain ⟨h1, h2, h3⟩ := ih (updateCount sys c0 c)
    simp only [List.foldl_cons, List.map_cons, List.sum_cons, List.length_cons]
    rw [h1, h2, h3]
    simp only [updateCount]
    exact ⟨by omega, by omega, by trivial⟩

end CardCounter

/-- C4: after any sequence of updates since the last reset, the running
count is the sum of the system's weights of the updated cards, the
cards-seen counter is their number, the remaining-decks estimate is
`(num_decks*52 − cards_seen)/52`, and the true count is running count over
remaining decks — exactly 0 when the remaining-decks estimate is
nonpositive. -/
theorem cardCounter_invariant (sys : Card → Int) (n : Nat) (cards : List Card) :
    (cards.foldl (CardCounter.updateCount sys) (CardCounter.init n)).runningCount
        = (cards.map sys).sum ∧
    (cards.foldl (CardCounter.updateCount sys) (CardCounter.init n)).cardsSeen
        = cards.length ∧
    (cards.foldl (CardCounter.updateCount sys) (CardCounter.init n)).remainingDecks
        = (((n * 52 : Nat) : ℚ) - (cards.length : ℚ)) / 52 ∧
    ((cards.foldl (CardCounter.updateCount sys) (CardCounter.init n)).remainingDecks ≤ 0 →
      (cards.foldl (CardCounter.updateCount sys) (CardCounter.init n)).trueCount = 0) ∧
    (0 < (cards.foldl (CardCounter.updateCount sys) (CardCounter.init n)).remainingDecks →
      (cards.foldl (CardCounter.updateCount sys) (CardCounter.init n)).trueCount
        = ((cards.map sys).sum : ℚ)
          / (cards.foldl (CardCounter.updateCount sys) (CardCounter.init n)).remainingDecks) := by
  obtain ⟨h1, h2, h3⟩ := CardCounter.foldl_updateCount sys cards (CardCounter.init n)
  have h1' : (cards.foldl (CardCounter.updateCount sys) (CardCounter.init n)).runningCount
      = (cards.map sys).sum := by rw [h1]; simp [CardCounter.init]
  have h2' : (cards.foldl (CardCounter.updateCount sys) (CardCounter.init n)).cardsSeen
      = cards.length := by rw [h2]; simp [CardCounter.init]
  have h3' : (cards.foldl (CardCounter.updateCount sys) (CardCounter.init n)).numDecks
      = n := by rw [h3]; rfl
  refine ⟨h1', h2', ?_, fun hle => ?_, fun hpos => ?_⟩
  · unfold CardCounter.remainingDecks
    rw [h3', h2']
  · unfold CardCounter.trueCount
    rw [if_pos hle]
  · unfold CardCounter.trueCount
    rw [if_neg (not_le.mpr hpos), h1']

/-- Witness for C4: one deck, all 52 cards seen — remaining decks is 0 and
the true count is exactly 0; one deck after [5, K] — running count 0, two
cards seen, true count equals the quotient. -/
theorem cardCounter_invariant_witness :
    ((List.replicate 52 sKing).foldl (CardCounter.updateCount hiLoValue)
        (CardCounter.init 1)).trueCount = 0 ∧
    ([sFive, sKing].foldl (CardCounter.updateCount hiLoValue)
        (CardCounter.init 1)).trueCount
      = ((([sFive, sKing].map hiLoValue).sum : ℚ)
          / ([sFive, sKing].foldl (CardCounter.updateCount hiLoValue)
              (CardCounter.init 1)).remainingDecks) := by
  constructor
  · refine (cardCounter_invariant hiLoValue 1 _).2.2.2.1 ?_
    rw [(cardCounter_invariant hiLoValue 1 _).2.2.1]
    norm_num
  · refine (cardCounter_invariant hiLoValue 1 _).2.2.2.2 ?_
    rw [(cardCounter_invariant hiLoValue 1 _).2.2.1]
    norm_num

/-- Player actions (`src/models/action.py`). -/
inductive Action where
  | hit | stand | double | split | surrender
deriving DecidableEq, Repr

/-- Game rule configuration (`src/models/game_rules.py`). -/
structure GameRules where
  dealerHitsSoft17 : Bool
  doubleAfterSplit : Bool
  surrenderAllowed : Bool
  numDecks : Nat
  penetration : ℚ
  blackjackPayout : ℚ
deriving DecidableEq, Repr

/-- The default `GameRules()` values. -/
def defaultRules : GameRules :=
  { dealerHitsSoft17 := true, doubleAfterSplit := true, surrenderAllowed := false,
    numDecks := 6, penetration := 3/4, blackjackPayout := 3/2 }

/-- The hard-totals chart (`BasicStrategy._load_hard_strategy`). -/
def hardStrategy : Nat → Nat → Option Action
  | 5, 2 => some .hit
  | 5, 3 => some .hit
  | 5, 4 => some .hit
  | 5, 5 => some .hit
  | 5, 6 => some .hit
  | 5, 7 => some .hit
  | 5, 8 => some .hit
  | 5, 9 => some .hit
  | 5, 10 => some .hit
  | 5, 11 => some .hit
  | 6, 2 => some .hit
  | 6, 3 => some .hit
  | 6, 4 => some .hit
  | 6, 5 => some .hit
  | 6, 6 => some .hit
  | 6, 7 => some .hit
  | 6, 8 => some .hit
  | 6, 9 => some .hit
  | 6, 10 => some .hit
  | 6, 11 => some .hit
  | 7, 2 => some .hit
  | 7, 3 => some .hit
  | 7, 4 => some .hit
  | 7, 5 => some .hit
  | 7, 6 => some .hit
  | 7, 7 => some .hit
  | 7, 8 => some .hit
  | 7, 9 => some .hit
  | 7, 10 => some .hit
  | 7, 11 => some .hit
  | 8, 2 => some .hit
  | 8, 3 => some .hit
  | 8, 4 => some .hit
  | 8, 5 => some .hit
  | 8, 6 => some .hit
  | 8, 7 => some .hit
  | 8, 8 => some .hit
  | 8, 9 => some .hit
  | 8, 10 => some .hit
  | 8, 11 => some .hit
  | 9, 2 => some .hit
  | 9, 3 => some .double
  | 9, 4 => some .double
  | 9, 5 => some .double
  | 9, 6 => some .double
  | 9, 7 => some .hit
  | 9, 8 => some .hit
  | 9, 9 => some .hit
  | 9, 10 => some .hit
  | 9, 11 => some .hit
  | 10, 2 => some .double
  | 10, 3 => some .double
  | 10, 4 => some .double
  | 10, 5 => some .double
  | 10, 6 => some .double
  | 10, 7 => some .double
  | 10, 8 => some .double
  | 10, 9 => some .double
  | 10, 10 => some .hit
  | 10, 11 => some .hit
  | 11, 2 => some .double
  | 11, 3 => some .double
  | 11, 4 => some .double
  | 11, 5 => some .double
  | 11, 6 => some .double
  | 11, 7 => some .double
  | 11, 8 => some .double
  | 11, 9 => some .double
  | 11, 10 => some .double
  | 11, 11 => some .hit
  | 12, 2 => some .hit
  | 12, 3 => some .hit
  | 12, 4 => some .stand
  | 12, 5 => some .stand
  | 12, 6 => some .stand
  | 12, 7 => some .hit
  | 12, 8 => some .hit
  | 12, 9 => some .hit
  | 12, 10 => some .hit
  | 12, 11 => some .hit
  | 13, 2 => some .stand
  | 13, 3 => some .stand
  | 13, 4 => some .stand
  | 13, 5 => some .stand
  | 13, 6 => some .stand
  | 13, 7 => some .hit
  | 13, 8 => some .hit
  | 13, 9 => some .hit
  | 13, 10 => some .hit
  | 13, 11 => some .hit
  | 14, 2 => some .stand
  | 14, 3 => some .stand
  | 14, 4 => some .stand
  | 14, 5 => some .stand
  | 14, 6 => some .stand
  | 14, 7 => some .hit
  | 14, 8 => some .hit
  | 14, 9 => some .hit
  | 14, 10 => some .hit
  | 14, 11 => some .hit
  | 15, 2 => some .stand
  | 15, 3 => some .stand
  | 15, 4 => some .stand
  | 15, 5 => some .stand
  | 15, 6 => some .stand
  | 15, 7 => some .hit
  | 15, 8 => some .hit
  | 15, 9 => some .hit
  | 15, 10 => some .hit
  | 15, 11 => some .hit
  | 16, 2 => some .stand
  | 16, 3 => some .stand
  | 16, 4 => some .stand
  | 16, 5 => some .stand
  | 16, 6 => some .stand
  | 16, 7 => some .hit
  | 16, 8 => some .hit
  | 16, 9 => some .hit
  | 16, 10 => some .hit
  | 16, 11 => some .hit
  | 17, 2 => some .stand
  | 17, 3 => some .stand
  | 17, 4 => some .stand
  | 17, 5 => some .stand
  | 17, 6 => some .stand
  | 17, 7 => some .stand
  | 17, 8 => some .stand
  | 17, 9 => some .stand
  | 17, 10 => some .stand
  | 17, 11 => some .stand
  | 18, 2 => some .stand
  | 18, 3 => some .stand
  | 18, 4 => some .stand
  | 18, 5 => some .stand
  | 18, 6 => some .stand
  | 18, 7 => some .stand
  | 18, 8 => some .stand
  | 18, 9 => some .stand
  | 18, 10 => some .stand
  | 18, 11 => some .stand
  | 19, 2 => some .stand
  | 19, 3 => some .stand
  | 19, 4 => some .stand
  | 19, 5 => some .stand
  | 19, 6 => some .stand
  | 19, 7 => some .stand
  | 19, 8 => some .stand
  | 19, 9 => some .stand
  | 19, 10 => some .stand
  | 19, 11 => some .stand
  | 20, 2 => some .stand
  | 20, 3 => some .stand
  | 20, 4 => some .stand
  | 20, 5 => some .stand
  | 20, 6 => some .stand
  | 20, 7 => some .stand
  | 20, 8 => some .stand
  | 20, 9 => some .stand
  | 20, 10 => some .stand
  | 20, 11 => some .stand
  | 21, 2 => some .stand
  | 21, 3 => some .stand
  | 21, 4 => some .stand
  | 21, 5 => some .stand
  | 21, 6 => some .stand
  | 21, 7 => some .stand
  | 21, 8 => some .stand
  | 21, 9 => some .stand
  | 21, 10 => some .stand
  | 21, 11 => some .stand
  | _, _ => none

/-- The soft-totals chart (`BasicStrategy._load_soft_strategy`). -/
def softStrategy : Nat → Nat → Option Action
  | 13, 2 => some .hit
  | 13, 3 => some .hit
  | 13, 4 => some .hit
  | 13, 5 => some .double
  | 13, 6 => some .double
  | 13, 7 => some .hit
  | 13, 8 => some .hit
  | 13, 9 => some .hit
  | 13, 10 => some .hit
  | 13, 11 => some .hit
  | 14, 2 => some .hit
  | 14, 3 => some .hit
  | 14, 4 => some .hit
  | 14, 5 => some .double
  | 14, 6 => some .double
  | 14, 7 => some .hit
  | 14, 8 => some .hit
  | 14, 9 => some .hit
  | 14, 10 => some .hit
  | 14, 11 => some .hit
  | 15, 2 => some .hit
  | 15, 3 => some .hit
  | 15, 4 => some .double
  | 15, 5 => some .double
  | 15, 6 => some .double
  | 15, 7 => some .hit
  | 15, 8 => some .hit
  | 15, 9 => some .hit
  | 15, 10 => some .hit
  | 15, 11 => some .hit
  | 16, 2 => some .hit
  | 16, 3 => some .hit
  | 16, 4 => some .double
  | 16, 5 => some .double
  | 16, 6 => some .double
  | 16, 7 => some .hit
  | 16, 8 => some .hit
  | 16, 9 => some .hit
  | 16, 10 => some .hit
  | 16, 11 => some .hit
  | 17, 2 => some .hit
  | 17, 3 => some .double
  | 17, 4 => some .double
  | 17, 5 => some .double
  | 17, 6 => some .double
  | 17, 7 => some .hit
  | 17, 8 => some .hit
  | 17, 9 => some .hit
  | 17, 10 => some .hit
  | 17, 11 => some .hit
  | 18, 2 => some .stand
  | 18, 3 => some .double
  | 18, 4 => some .double
  | 18, 5 => some .double
  | 18, 6 => some .double
  | 18, 7 => some .stand
  | 18, 8 => some .stand
  | 18, 9 => some .hit
  | 18, 10 => some .hit
  | 18, 11 => some .hit
  | 19, 2 => some .stand
  | 19, 3 => some .stand
  | 19, 4 => some .stand
  | 19, 5 => some .stand
  | 19, 6 => some .stand
  | 19, 7 => some .stand
  | 19, 8 => some .stand
  | 19, 9 => some .stand
  | 19, 10 => some .stand
  | 19, 11 => some .stand
  | 20, 2 => some .stand
  | 20, 3 => some .stand
  | 20, 4 => some .stand
  | 20, 5 => some .stand
  | 20, 6 => some .stand
  | 20, 7 => some .stand
  | 20, 8 => some .stand
  | 20, 9 => some .stand
  | 20, 10 => some .stand
  | 20, 11 => some .stand
  | _, _ => none

/-- The pair chart (`BasicStrategy._load_pair_strategy`), keyed by the
rank of the first card (the source keys by the rank string, which is in
bijection with the rank). -/
def pairStrategy : Rank → Nat → Option Action
  | .ace, 2 => some .split
  | .ace, 3 => some .split
  | .ace, 4 => some .split
  | .ace, 5 => some .split
  | .ace, 6 => some .split
  | .ace, 7 => some .split
  | .ace, 8 => some .split
  | .ace, 9 => some .split
  | .ace, 10 => some .split
  | .ace, 11 => some .split
  | .two, 2 => some .split
  | .two, 3 => some .split
  | .two, 4 => some .split
  | .two, 5 => some .split
  | .two, 6 => some .split
  | .two, 7 => some .split
  | .two, 8 => some .hit
  | .two, 9 => some .hit
  | .two, 10 => some .hit
  | .two, 11 => some .hit
  | .three, 2 => some .split
  | .three, 3 => some .split
  | .three, 4 => some .split
  | .three, 5 => some .split
  | .three, 6 => some .split
  | .three, 7 => some .split
  | .three, 8 => some .hit
  | .three, 9 => some .hit
  | .three, 10 => some .hit
  | .three, 11 => some .hit
  | .four, 2 => some .hit
  | .four, 3 => some .hit
  | .four, 4 => some .hit
  | .four, 5 => some .hit
  | .four, 6 => some .hit
  | .four, 7 => some .hit
  | .four, 8 => some .hit
  | .four, 9 => some .hit
  | .four, 10 => some .hit
  | .four, 11 => some .hit
  | .five, 2 => some .double
  | .five, 3 => some .double
  | .five, 4 => some .double
  | .five, 5 => some .double
  | .five, 6 => some .double
  | .five, 7 => some .double
  | .five, 8 => some .double
  | .five, 9 => some .double
  | .five, 10 => some .hit
  | .five, 11 => some .hit
  | .six, 2 => some .split
  | .six, 3 => some .split
  | .six, 4 => some .split
  | .six, 5 => some .split
  | .six, 6 => some .split
  | .six, 7 => some .hit
  | .six, 8 => some .hit
  | .six, 9 => some .hit
  | .six, 10 => some .hit
  | .six, 11 => some .hit
  | .seven, 2 => some .split
  | .seven, 3 => some .split
  | .seven, 4 => some .split
  | .seven, 5 => some .split
  | .seven, 6 => some .split
  | .seven, 7 => some .split
  | .seven, 8 => some .hit
  | .seven, 9 => some .hit
  | .seven, 10 => some .hit
  | .seven, 11 => some .hit
  | .eight, 2 => some .split
  | .eight, 3 => some .split
  | .eight, 4 => some .split
  | .eight, 5 => some .split
  | .eight, 6 => some .split
  | .eight, 7 => some .split
  | .eight, 8 => some .split
  | .eight, 9 => some .split
  | .eight, 10 => some .split
  | .eight, 11 => some .split
  | .nine, 2 => some .split
  | .nine, 3 => some .split
  | .nine, 4 => some .split
  | .nine, 5 => some .split
  | .nine, 6 => some .split
  | .nine, 7 => some .stand
  | .nine, 8 => some .split
  | .nine, 9 => some .split
  | .nine, 10 => some .stand
  | .nine, 11 => some .stand
  | .ten, 2 => some .stand
  | .ten, 3 => some .stand
  | .ten, 4 => some .stand
  | .ten, 5 => some .stand
  | .ten, 6 => some .stand
  | .ten, 7 => some .stand
  | .ten, 8 => some .stand
  | .ten, 9 => some .stand
  | .ten, 10 => some .stand
  | .ten, 11 => some .stand
  | .jack, 2 => some .stand
  | .jack, 3 => some .stand
  | .jack, 4 => some .stand
  | .jack, 5 => some .stand
  | .jack, 6 => some .stand
  | .jack, 7 => some .stand
  | .jack, 8 => some .stand
  | .jack, 9 => some .stand
  | .jack, 10 => some .stand
  | .jack, 11 => some .stand
  | .queen, 2 => some .stand
  | .queen, 3 => some .stand
  | .queen, 4 => some .stand
  | .queen, 5 => some .stand
  | .queen, 6 => some .stand
  | .queen, 7 => some .stand
  | .queen, 8 => some .stand
  | .queen, 9 => some .stand
  | .queen, 10 => some .stand
  | .queen, 11 => some .stand
  | .king, 2 => some .stand
  | .king, 3 => some .stand
  | .king, 4 => some .stand
  | .king, 5 => some .stand
  | .king, 6 => some .stand
  | .king, 7 => some .stand
  | .king, 8 => some .stand
  | .king, 9 => some .stand
  | .king, 10 => some .stand
  | .king, 11 => some .stand
  | _, _ => none

/-- The dealer up-card value used by both strategies: ace counts 11,
otherwise the blackjack value (`BasicStrategy.get_action` line 33). -/
def dealerUpValue (c : Card) : Nat :=
  if c.rank = .ace then 11 else c.value false

/-- Rank of the first card of a hand; only consulted under `can_split`,
which guarantees the hand is nonempty. -/
def firstRank (hand : Hand) : Rank :=
  match hand with
  | c :: _ => c.rank
  | [] => .ace

/-- Blackjack value of the first card of a hand (ace as 1); only consulted
under `can_split`. -/
def firstCardValue (hand : Hand) : Nat :=
  match hand with
  | c :: _ => c.value false
  | [] => 0

namespace BasicStrategy

/-- `BasicStrategy._get_hard_action`. -/
def getHardAction (t dv : Nat) (canDbl : Bool) : Action :=
  let a := (hardStrategy t dv).getD .stand
  if a = .double ∧ canDbl = false then .hit else a

/-- `BasicStrategy._get_soft_action`. -/
def getSoftAction (t dv : Nat) (canDbl : Bool) : Action :=
  let a := (softStrategy t dv).getD .stand
  if a = .double ∧ canDbl = false then .hit else a

/-- `BasicStrategy._get_pair_action` (its trailing `if` is the identity, as
in the source). -/
def getPairAction (r : Rank) (dv : Nat) : Action :=
  let a := (pairStrategy r dv).getD .hit
  if a = .split then .split else a

/-- `BasicStrategy.get_action`. -/
def getAction (hand : Hand) (up : Card) (rules : GameRules) : Action :=
  if Hand.isBlackjack hand then .stand
  else
    let t := Hand.value hand
    let dv := dealerUpValue up
    if Hand.canSplit hand ∧ hand.length = 2 ∧ getPairAction (firstRank hand) dv = .split
    then .split
    else if Hand.isSoft hand then getSoftAction t dv (Hand.canDouble hand)
    else getHardAction t dv (Hand.canDouble hand)

end BasicStrategy

namespace DeviationStrategy

/-- The deviation threshold table
(`DeviationStrategy._load_common_deviations`). -/
def deviationThresholds : Nat × Nat × Action → Option ℚ
  | (16, 10, .stand) => some 0
  | (15, 10, .stand) => some 4
  | (13, 2, .hit) => some (-1)
  | (12, 3, .hit) => some (-2)
  | (12, 2, .stand) => some 3
  | (12, 4, .stand) => some 0
  | (12, 5, .hit) => some (-2)
  | (12, 6, .hit) => some (-1)
  | (10, 10, .double) => some 4
  | (11, 11, .double) => some 1
  | (9, 2, .double) => some 1
  | (9, 7, .double) => some 3
  | (8, 6, .double) => some 2
  | (20, 5, .split) => some 5
  | (20, 6, .split) => some 4
  | _ => none

/-- `true_count >= self._deviation_thresholds.get(key, float('inf'))`:
against a missing entry the comparison with +∞ is false. -/
def geThreshold (k : Nat × Nat × Action) (tc : ℚ) : Bool :=
  match deviationThresholds k with
  | some t => t ≤ tc
  | none => false

/-- `true_count <= self._deviation_thresholds.get(key, float('-inf'))`:
against a missing entry the comparison with −∞ is false. -/
def leThreshold (k : Nat × Nat × Action) (tc : ℚ) : Bool :=
  match deviationThresholds k with
  | some t => tc ≤ t
  | none => false

/-- `DeviationStrategy._check_deviations`.  The source is a sequence of
independent `if` statements; their guards are pairwise disjoint (each is
keyed on a distinct (total, dealer-value) pair, and the two split checks
force a total of 20), so the else-if chain is equivalent. -/
def checkDeviations (playerTotal dv : Nat) (tc : ℚ) (hand : Hand) : Option Action :=
  if playerTotal = 16 ∧ dv = 10 then
    (if geThreshold (16, 10, .stand) tc then some .stand else some .hit)
  else if playerTotal = 15 ∧ dv = 10 then
    (if geThreshold (15, 10, .stand) tc then some .stand else none)
  else if playerTotal = 13 ∧ dv = 2 then
    (if leThreshold (13, 2, .hit) tc then some .hit else none)
  else if playerTotal = 12 ∧ dv = 3 then
    (if leThreshold (12, 3, .hit) tc then some .hit else none)
  else if playerTotal = 12 ∧ dv = 2 then
    (if geThreshold (12, 2, .stand) tc then some .stand else none)
  else if playerTotal = 10 ∧ dv = 10 ∧ Hand.canDouble hand = true then
    (if geThreshold (10, 10, .double) tc then some .double else none)
  else if playerTotal = 11 ∧ dv = 11 ∧ Hand.canDouble hand = true then
    (if geThreshold (11, 11, .double) tc then some .double else none)
  else if playerTotal = 9 ∧ dv = 2 ∧ Hand.canDouble hand = true then
    (if geThreshold (9, 2, .double) tc then some .double else none)
  else if Hand.canSplit hand = true ∧ hand.length = 2 ∧ firstCardValue hand = 10 ∧ dv = 5 then
    (if geThreshold (20, 5, .split) tc then some .split else none)
  else if Hand.canSplit hand = true ∧ hand.length = 2 ∧ firstCardValue hand = 10 ∧ dv = 6 then
    (if geThreshold (20, 6, .split) tc then some .split else none)
  else none

/-- `DeviationStrategy.get_action`. -/
def getAction (hand : Hand) (up : Card) (tc : ℚ) (rules : GameRules) : Action :=
  if Hand.isBlackjack hand then .stand
  else
    match checkDeviations (Hand.value hand) (dealerUpValue up) tc hand with
    | some a => a
    | none => BasicStrategy.getAction hand up rules

end DeviationStrategy

def hTwo : Card := ⟨.hearts, .two⟩

def hQueen : Card := ⟨.hearts, .queen⟩

/-- Spec-side rendering of amended claim C6: the deviation layer consults
only ten hard-coded situations, with the literal thresholds of the loaded
table; on 16 vs 10 below the threshold it answers Hit directly instead of
falling back to basic strategy; table entries (12,4), (12,5), (12,6), (9,7)
and (8,6) are never consulted; in every unlisted situation it delegates to
`BasicStrategy`. -/
def deviationSpecChain (hand : Hand) (up : Card) (tc : ℚ) (rules : GameRules) : Action :=
  if Hand.isBlackjack hand then .stand
  else if Hand.value hand = 16 ∧ dealerUpValue up = 10 then
    (if (0 : ℚ) ≤ tc then .stand else .hit)
  else if Hand.value hand = 15 ∧ dealerUpValue up = 10 then
    (if (4 : ℚ) ≤ tc then .stand else BasicStrategy.getAction hand up rules)
  else if Hand.value hand = 13 ∧ dealerUpValue up = 2 then
    (if tc ≤ (-1 : ℚ) then .hit else BasicStrategy.getAction hand up rules)
  else if Hand.value hand = 12 ∧ dealerUpValue up = 3 then
    (if tc ≤ (-2 : ℚ) then .hit else BasicStrategy.getAction hand up rules)
  else if Hand.value hand = 12 ∧ dealerUpValue up = 2 then
    (if (3 : ℚ) ≤ tc then .stand else BasicStrategy.getAction hand up rules)
  else if Hand.value hand = 10 ∧ dealerUpValue up = 10 ∧ Hand.canDouble hand = true then
    (if (4 : ℚ) ≤ tc then .double else BasicStrategy.getAction hand up rules)
  else if Hand.value hand = 11 ∧ dealerUpValue up = 11 ∧ Hand.canDouble hand = true then
    (if (1 : ℚ) ≤ tc then .double else BasicStrategy.getAction hand up rules)
  else if Hand.value hand = 9 ∧ dealerUpValue up = 2 ∧ Hand.canDouble hand = true then
    (if (1 : ℚ) ≤ tc then .double else BasicStrategy.getAction hand up rules)
  else if Hand.canSplit hand = true ∧ hand.length = 2 ∧ firstCardValue hand = 10
      ∧ dealerUpValue up = 5 then
    (if (5 : ℚ) ≤ tc then .split else BasicStrategy.getAction hand up rules)
  else if Hand.canSplit hand = true ∧ hand.length = 2 ∧ firstCardValue hand = 10
      ∧ dealerUpValue up = 6 then
    (if (4 : ℚ) ≤ tc then .split else BasicStrategy.getAction hand up rules)
  else BasicStrategy.getAction hand up rules

/-- Counterexample for C6: the table entry (9, 7, Double) with threshold 3
matches a hard 9 against a dealer 7 at true count 10 (which triggers the
entry's ≥-rule), yet `DeviationStrategy.get_action` returns Hit — the basic
strategy answer — because `_check_deviations` never consults that entry. -/
theorem deviation_table_entry_ignored_counterexample :
    DeviationStrategy.deviationThresholds (9, 7, .double) = some 3 ∧
    (3 : ℚ) ≤ 10 ∧
    Hand.value [sFive, sFour] = 9 ∧
    dealerUpValue sSeven = 7 ∧
    Hand.canDouble [sFive, sFour] = true ∧
    DeviationStrategy.getAction [sFive, sFour] sSeven 10 defaultRules = .hit ∧
    Action.hit ≠ Action.double := by decide

set_option maxHeartbeats 2000000 in
/-- C6 amended: `DeviationStrategy.get_action` equals the explicit
chain `deviationSpecChain` — it applies a deviation only in the ten
situations hard-coded in `_check_deviations` (with the table's literal
thresholds and the stated direction rules), answers Hit directly on 16 vs
10 below the threshold, ignores the table entries (12,4), (12,5), (12,6),
(9,7), (8,6), and otherwise delegates to `BasicStrategy.get_action`. -/
theorem deviation_getAction_characterization (hand : Hand) (up : Card) (tc : ℚ)
    (rules : GameRules) :
    DeviationStrategy.getAction hand up tc rules = deviationSpecChain hand up tc rules := by
  unfold DeviationStrategy.getAction deviationSpecChain DeviationStrategy.checkDeviations
  simp only [DeviationStrategy.geThreshold, DeviationStrategy.leThreshold,
    DeviationStrategy.deviationThresholds, decide_eq_true_eq]
  by_cases h0 : Hand.isBlackjack hand = true
  · rw [if_pos h0, if_pos h0]
  · rw [if_neg h0, if_neg h0]
    by_cases h1 : Hand.value hand = 16 ∧ dealerUpValue up = 10
    · rw [if_pos h1, if_pos h1]
      by_cases t1 : (0 : ℚ) ≤ tc
      · rw [if_pos t1, if_pos t1]
      · rw [if_neg t1, if_neg t1]
    · rw [if_neg h1, if_neg h1]
      by_cases h2 : Hand.value hand = 15 ∧ dealerUpValue up = 10
      · rw [if_pos h2, if_pos h2]
        by_cases t2 : (4 : ℚ) ≤ tc
        · rw [if_pos t2, if_pos t2]
        · rw [if_neg t2, if_neg t2]
      · rw [if_neg h2, if_neg h2]
        by_cases h3 : Hand.value hand = 13 ∧ dealerUpValue up = 2
        · rw [if_pos h3, if_pos h3]
          by_cases t3 : tc ≤ (-1 : ℚ)
          · rw [if_pos t3, if_pos t3]
          · rw [if_neg t3, if_neg t3]
        · rw [if_neg h3, if_neg h3]
          by_cases h4 : Hand.value hand = 12 ∧ dealerUpValue up = 3
          · rw [if_pos h4, if_pos h4]
            by_cases t4 : tc ≤ (-2 : ℚ)
            · rw [if_pos t4, if_pos t4]
            · rw [if_neg t4, if_neg t4]
          · rw [if_neg h4, if_neg h4]
            by_cases h5 : Hand.value hand = 12 ∧ dealerUpValue up = 2
            · rw [if_pos h5, if_pos h5]
              by_cases t5 : (3 : ℚ) ≤ tc
              · rw [if_pos t5, if_pos t5]
              · rw [if_neg t5, if_neg t5]
            · rw [if_neg h5, if_neg h5]
              by_cases h6 : Hand.value hand = 10 ∧ dealerUpValue up = 10 ∧ Hand.canDouble hand = true
              · rw [if_pos h6, if_pos h6]
                by_cases t6 : (4 : ℚ) ≤ tc
                · rw [if_pos t6, if_pos t6]
                · rw [if_neg t6, if_neg t6]
              · rw [if_neg h6, if_neg h6]
                by_cases h7 : Hand.value hand = 11 ∧ dealerUpValue up = 11 ∧ Hand.canDouble hand = true
                · rw [if_pos h7, if_pos h7]
                  by_cases t7 : (1 : ℚ) ≤ tc
                  · rw [if_pos t7, if_pos t7]
                  · rw [if_neg t7, if_neg t7]
                · rw [if_neg h7, if_neg h7]
                  by_cases h8 : Hand.value hand = 9 ∧ dealerUpValue up = 2 ∧ Hand.canDouble hand = true
                  · rw [if_pos h8, if_pos h8]
                    by_cases t8 : (1 : ℚ) ≤ tc
                    · rw [if_pos t8, if_pos t8]
                    · rw [if_neg t8, if_neg t8]
                  · rw [if_neg h8, if_neg h8]
                    by_cases h9 : Hand.canSplit hand = true ∧ List.length hand = 2 ∧ firstCardValue hand = 10 ∧ dealerUpValue up = 5
                    · rw [if_pos h9, if_pos h9]
                      by_cases t9 : (5 : ℚ) ≤ tc
                      · rw [if_pos t9, if_pos t9]
                      · rw [if_neg t9, if_neg t9]
                    · rw [if_neg h9, if_neg h9]
                      by_cases h10 : Hand.canSplit hand = true ∧ List.length hand = 2 ∧ firstCardValue hand = 10 ∧ dealerUpValue up = 6
                      · rw [if_pos h10, if_pos h10]
                        by_cases t10 : (4 : ℚ) ≤ tc
                        · rw [if_pos t10, if_pos t10]
                        · rw [if_neg t10, if_neg t10]
                      · rw [if_neg h10, if_neg h10]

/-- Counterexample for C7: the loaded entry (12, 4, Stand) has threshold 0,
but no hand totalling 12 against a dealer 4 produces different
recommendations at true count −1 and +1 — `_check_deviations` has no branch
for dealer value 4, so the entry can never fire. -/
theorem deviation_roundtrip_counterexample :
    DeviationStrategy.deviationThresholds (12, 4, .stand) = some 0 ∧
    ¬ ∃ hand : Hand, Hand.value hand = 12 ∧
      DeviationStrategy.getAction hand sFour (-1) defaultRules
        ≠ DeviationStrategy.getAction hand sFour 1 defaultRules := by
  refine ⟨rfl, fun ⟨hand, _, hne⟩ => hne ?_⟩
  unfold DeviationStrategy.getAction
  have h4 : dealerUpValue sFour = 4 := rfl
  have hnone : ∀ tc : ℚ,
      DeviationStrategy.checkDeviations (Hand.value hand) 4 tc hand = none := by
    intro tc
    unfold DeviationStrategy.checkDeviations
    norm_num
  rw [h4, hnone, hnone]

/-- C7 amended: the threshold round trip holds exactly for the ten entries
consulted by `_check_deviations` — 16v10 Stand, 15v10 Stand, 13v2 Hit,
12v3 Hit, 12v2 Stand, 10v10 Double, 11vA Double, 9v2 Double, 20v5 Split,
20v6 Split — each exhibited by a concrete hand whose recommendation at T−1
and at T+1 differs in the direction of the entry's comparison rule (for
12v3 Hit the hand is a pair of aces, valued 12, whose basic-strategy
fallback above the threshold is Split).  The round trip fails for the five
never-consulted entries (12,4), (12,5), (12,6), (9,7), (8,6). -/
theorem deviation_roundtrip_effective_entries :
    (DeviationStrategy.deviationThresholds (16, 10, .stand) = some 0 ∧
      DeviationStrategy.getAction [sTen, sSix] sKing (-1) defaultRules = .hit ∧
      DeviationStrategy.getAction [sTen, sSix] sKing 1 defaultRules = .stand) ∧
    (DeviationStrategy.deviationThresholds (15, 10, .stand) = some 4 ∧
      DeviationStrategy.getAction [sTen, sFive] hKing 3 defaultRules = .hit ∧
      DeviationStrategy.getAction [sTen, sFive] hKing 5 defaultRules = .stand) ∧
    (DeviationStrategy.deviationThresholds (13, 2, .hit) = some (-1) ∧
      DeviationStrategy.getAction [sTen, sThree] sTwo (-2) defaultRules = .hit ∧
      DeviationStrategy.getAction [sTen, sThree] sTwo 0 defaultRules = .stand) ∧
    (DeviationStrategy.deviationThresholds (12, 3, .hit) = some (-2) ∧
      DeviationStrategy.getAction [sAce, hAce] sThree (-3) defaultRules = .hit ∧
      DeviationStrategy.getAction [sAce, hAce] sThree (-1) defaultRules = .split) ∧
    (DeviationStrategy.deviationThresholds (12, 2, .stand) = some 3 ∧
      DeviationStrategy.getAction [sTen, sTwo] hTwo 2 defaultRules = .hit ∧
      DeviationStrategy.getAction [sTen, sTwo] hTwo 4 defaultRules = .stand) ∧
    (DeviationStrategy.deviationThresholds (10, 10, .double) = some 4 ∧
      DeviationStrategy.getAction [sSix, sFour] sTen 3 defaultRules = .hit ∧
      DeviationStrategy.getAction [sSix, sFour] sTen 5 defaultRules = .double) ∧
    (DeviationStrategy.deviationThresholds (11, 11, .double) = some 1 ∧
      DeviationStrategy.getAction [sSix, sFive] sAce 0 defaultRules = .hit ∧
      DeviationStrategy.getAction [sSix, sFive] sAce 2 defaultRules = .double) ∧
    (DeviationStrategy.deviationThresholds (9, 2, .double) = some 1 ∧
      DeviationStrategy.getAction [sFive, sFour] sTwo 0 defaultRules = .hit ∧
      DeviationStrategy.getAction [sFive, sFour] sTwo 2 defaultRules = .double) ∧
    (DeviationStrategy.deviationThresholds (20, 5, .split) = some 5 ∧
      DeviationStrategy.getAction [sKing, hKing] sFive 4 defaultRules = .stand ∧
      DeviationStrategy.getAction [sKing, hKing] sFive 6 defaultRules = .split) ∧
    (DeviationStrategy.deviationThresholds (20, 6, .split) = some 4 ∧
      DeviationStrategy.getAction [sQueen, hQueen] sSix 3 defaultRules = .stand ∧
      DeviationStrategy.getAction [sQueen, hQueen] sSix 5 defaultRules = .split) := by
  decide

/-- The engine state (`src/game/blackjack_game.py`, `BlackjackGame`).
Python methods mutate the object and may raise midway; an operation here
returns `Except (GameError × Game) Game`, where the error carries the
object state at raise time, so partial mutation is observable. -/
structure Game where
  rules : GameRules
  shoe : Shoe
  player : Hand
  dealer : Hand
  gameOver : Bool
  result : Option GameResult
deriving DecidableEq, Repr

namespace Game

/-- `BlackjackGame._determine_winner`. -/
def determineWinner (rules : GameRules) (player dealer : Hand) : GameResult :=
  let pv := Hand.value player
  let dv := Hand.value dealer
  if Hand.isBust player = true then
    mkGameResult .loss pv (some dv) (-1) true false false false
  else if Hand.isBust dealer = true then
    mkGameResult .win pv (some dv) 1 false true false false
  else if Hand.isBlackjack player = true ∧ Hand.isBlackjack dealer = true then
    mkGameResult .push pv (some dv) 0 false false true true
  else if Hand.isBlackjack player = true ∧ ¬ Hand.isBlackjack dealer = true then
    mkGameResult .blackjack pv (some dv) rules.blackjackPayout false false true false
  else if Hand.isBlackjack dealer = true ∧ ¬ Hand.isBlackjack player = true then
    mkGameResult .loss pv (some dv) (-1) false false false true
  else if pv > dv then
    mkGameResult .win pv (some dv) 1 false false false false
  else if pv < dv then
    mkGameResult .loss pv (some dv) (-1) false false false false
  else
    mkGameResult .push pv (some dv) 0 false false false false

/-- The dealer hit loop of `BlackjackGame._dealer_play`: stand on hard 17+,
hit below 17, hit soft 17 exactly when the rules say so.  A failing deal
returns the dealer hand and shoe as mutated so far. -/
def dealerLoop (rules : GameRules) (dealer : Hand) (shoe : Shoe) :
    Except (GameError × Hand × Shoe) (Hand × Shoe) :=
  if 17 ≤ Hand.value dealer then
    if Hand.value dealer = 17 ∧ Hand.isSoft dealer = true ∧ rules.dealerHitsSoft17 = true then
      match h : shoe.dealCard with
      | .error e => .error (e, dealer, shoe)
      | .ok (c, s') => dealerLoop rules (dealer ++ [c]) s'
    else .ok (dealer, shoe)
  else
    match h : shoe.dealCard with
    | .error e => .error (e, dealer, shoe)
    | .ok (c, s') => dealerLoop rules (dealer ++ [c]) s'
termination_by shoe.cards.length
decreasing_by
  · exact Shoe.dealCard_length_lt shoe c s' h
  · exact Shoe.dealCard_length_lt shoe c s' h

/-- `BlackjackGame._dealer_play`, including its early return when the
player has busted. -/
def dealerPlay (rules : GameRules) (player dealer : Hand) (shoe : Shoe) :
    Except (GameError × Hand × Shoe) (Hand × Shoe) :=
  if Hand.isBust player = true then .ok (dealer, shoe)
  else dealerLoop rules dealer shoe

/-- `BlackjackGame.deal_initial_cards`: guards, then deal player, dealer,
player, dealer, then resolve natural blackjacks. -/
def dealInitialCards (g : Game) : Except (GameError × Game) Game :=
  if 0 < g.player.length ∨ 0 < g.dealer.length then .error (.gameAlreadyStarted, g)
  else if g.shoe.needsShuffle = true then .error (.shoeNeedsShuffle, g)
  else
    match g.shoe.dealCard with
    | .error e => .error (e, g)
    | .ok (c1, s1) =>
      let g1 := { g with player := g.player ++ [c1], shoe := s1 }
      match s1.dealCard with
      | .error e => .error (e, g1)
      | .ok (c2, s2) =>
        let g2 := { g1 with dealer := g1.dealer ++ [c2], shoe := s2 }
        match s2.dealCard with
        | .error e => .error (e, g2)
        | .ok (c3, s3) =>
          let g3 := { g2 with player := g2.player ++ [c3], shoe := s3 }
          match s3.dealCard with
          | .error e => .error (e, g3)
          | .ok (c4, s4) =>
            let g4 := { g3 with dealer := g3.dealer ++ [c4], shoe := s4 }
            if Hand.isBlackjack g4.player = true ∨ Hand.isBlackjack g4.dealer = true then
              .ok { g4 with
                gameOver := true
                result := some (determineWinner g4.rules g4.player g4.dealer) }
            else .ok g4

/-- `BlackjackGame.player_hit`. -/
def playerHit (g : Game) : Except (GameError × Game) Game :=
  if g.gameOver = true then .error (.gameIsOver, g)
  else if g.player.length = 0 then .error (.gameNotStarted, g)
  else
    match g.shoe.dealCard with
    | .error e => .error (e, g)
    | .ok (c, s') =>
      let p' := g.player ++ [c]
      if Hand.isBust p' = true then
        .ok { g with
          player := p'
          shoe := s'
          gameOver := true
          result := some (mkGameResult .loss (Hand.value p')
            (some (Hand.value g.dealer)) 0 true false false false) }
      else .ok { g with player := p', shoe := s' }

/-- `BlackjackGame.player_stand`. -/
def playerStand (g : Game) : Except (GameError × Game) Game :=
  if g.gameOver = true then .error (.gameIsOver, g)
  else if g.player.length = 0 then .error (.gameNotStarted, g)
  else
    match dealerPlay g.rules g.player g.dealer g.shoe with
    | .error (e, d', s') => .error (e, { g with dealer := d', shoe := s' })
    | .ok (d', s') =>
      .ok { g with
        dealer := d'
        shoe := s'
        gameOver := true
        result := some (determineWinner g.rules g.player d') }

/-- `BlackjackGame.can_double`. -/
def canDouble (g : Game) : Bool :=
  !g.gameOver && Hand.canDouble g.player && !Hand.isBlackjack g.player

/-- `BlackjackGame.can_surrender`. -/
def canSurrender (g : Game) : Bool :=
  !g.gameOver && g.rules.surrenderAllowed && g.player.length = 2
    && !Hand.isBlackjack g.player

/-- `BlackjackGame.player_double`, including the post-construction payout
doubling applied to the dealer-play result. -/
def playerDouble (g : Game) : Except (GameError × Game) Game :=
  if g.gameOver = true then .error (.gameIsOver, g)
  else if canDouble g = false then .error (.cannotDouble, g)
  else
    match g.shoe.dealCard with
    | .error e => .error (e, g)
    | .ok (c, s') =>
      let p' := g.player ++ [c]
      let g1 := { g with player := p', shoe := s' }
      if Hand.isBust p' = true then
        .ok { g1 with
          gameOver := true
          result := some (mkGameResult .loss (Hand.value p')
            (some (Hand.value g.dealer)) (-2) true false false false) }
      else
        match dealerPlay g1.rules p' g1.dealer g1.shoe with
        | .error (e, d', s2) => .error (e, { g1 with dealer := d', shoe := s2 })
        | .ok (d', s2) =>
          let r := determineWinner g.rules p' d'
          let r2 := if 0 < r.payout then { r with payout := r.payout * 2 }
                    else if r.payout < 0 then { r with payout := r.payout * 2 }
                    else r
          .ok { g1 with dealer := d', shoe := s2, gameOver := true, result := some r2 }

/-- `BlackjackGame.player_surrender`. -/
def playerSurrender (g : Game) : Except (GameError × Game) Game :=
  if g.gameOver = true then .error (.gameIsOver, g)
  else if canSurrender g = false then .error (.cannotSurrender, g)
  else .ok { g with
    gameOver := true
    result := some (mkGameResult .surrender (Hand.value g.player) none
      (-(1/2)) false false false false) }

end Game

/-- The counting engine state (`src/game/counting_game.py`,
`CountingBlackjackGame`): the base game plus the card counter; the counting
system is passed separately as a weight function. -/
structure CGame where
  game : Game
  counter : CardCounter
deriving DecidableEq, Repr

/-- `CountingBlackjackGame.deal_initial_cards`: shuffles (and resets the
counter) when the shoe requires it, deals through the base engine, then
reveals both player cards and the dealer's first card to the counter.  The
random permutation of `Shoe.shuffle` is supplied by the caller as `ord`. -/
def countingDealInitialCards (sys : Card → Int) (g : CGame) (ord : List Card) :
    Except (GameError × CGame) CGame :=
  let shoe1 := if g.game.shoe.needsShuffle then g.game.shoe.shuffleWith ord else g.game.shoe
  let counter1 := if g.game.shoe.needsShuffle then CardCounter.init g.counter.numDecks
                  else g.counter
  match Game.dealInitialCards { g.game with shoe := shoe1 } with
  | .error (e, g') => .error (e, ⟨g', counter1⟩)
  | .ok g' =>
    let c2 := g'.player.foldl (CardCounter.updateCount sys) counter1
    let c3 := match g'.dealer with
      | d0 :: _ => CardCounter.updateCount sys c2 d0
      | [] => c2
    .ok ⟨g', c3⟩

/-- The shoe actually dealt from by `CountingBlackjackGame.deal_initial_cards`
(after its conditional shuffle). -/
def effShoe (g : CGame) (ord : List Card) : Shoe :=
  if g.game.shoe.needsShuffle then g.game.shoe.shuffleWith ord else g.game.shoe

/-- The counter state after the conditional shuffle notification. -/
def effCounter (g : CGame) : CardCounter :=
  if g.game.shoe.needsShuffle then CardCounter.init g.counter.numDecks else g.counter

theorem shoe_dealCard_ok_elim (s : Shoe) (c : Card) (s' : Shoe)
    (h : s.dealCard = .ok (c, s')) :
    s.needsShuffle = false ∧ ∃ rest, s.cards = c :: rest ∧
      s' = { s with cards := rest, cardsDealt := s.cardsDealt + 1 } := by
  unfold Shoe.dealCard at h
  by_cases hn : s.needsShuffle
  · simp [hn] at h
  · refine ⟨by simpa using hn, ?_⟩
    match hc : s.cards with
    | [] => rw [hc] at h; simp [hn] at h
    | c0 :: rest =>
      rw [hc] at h
      simp only [hn, Bool.false_eq_true, if_false, Except.ok.injEq, Prod.mk.injEq] at h
      refine ⟨rest, by rw [h.1], ?_⟩
      rw [← h.2]

namespace Game

theorem dealerLoop_stand (rules : GameRules) (d : Hand) (s : Shoe)
    (h17 : 17 ≤ Hand.value d)
    (hns : ¬(Hand.value d = 17 ∧ Hand.isSoft d = true ∧ rules.dealerHitsSoft17 = true)) :
    dealerLoop rules d s = .ok (d, s) := by
  unfold dealerLoop
  rw [if_pos h17, if_neg hns]

theorem dealerLoop_hit_low_ok (rules : GameRules) (d : Hand) (s : Shoe) (c : Card)
    (s' : Shoe) (h : Hand.value d < 17) (hd : s.dealCard = .ok (c, s')) :
    dealerLoop rules d s = dealerLoop rules (d ++ [c]) s' := by
  conv_lhs => unfold dealerLoop
  rw [if_neg (by omega)]
  split
  · rename_i e heq
    rw [hd] at heq
    cases heq
  · rename_i c2 s2 heq
    rw [hd] at heq
    injection heq with heq1
    injection heq1 with hc hs
    rw [hc, hs]

theorem dealerLoop_hit_low_err (rules : GameRules) (d : Hand) (s : Shoe) (e : GameError)
    (h : Hand.value d < 17) (hd : s.dealCard = .error e) :
    dealerLoop rules d s = .error (e, d, s) := by
  conv_lhs => unfold dealerLoop
  rw [if_neg (by omega)]
  split
  · rename_i e2 heq
    rw [hd] at heq
    injection heq with he
    rw [he]
  · rename_i c2 s2 heq
    rw [hd] at heq
    cases heq

theorem dealerLoop_hit_soft17_ok (rules : GameRules) (d : Hand) (s : Shoe) (c : Card)
    (s' : Shoe) (h17 : Hand.value d = 17) (hsoft : Hand.isSoft d = true)
    (hrule : rules.dealerHitsSoft17 = true) (hd : s.dealCard = .ok (c, s')) :
    dealerLoop rules d s = dealerLoop rules (d ++ [c]) s' := by
  conv_lhs => unfold dealerLoop
  rw [if_pos (by omega), if_pos ⟨h17, hsoft, hrule⟩]
  split
  · rename_i e heq
    rw [hd] at heq
    cases heq
  · rename_i c2 s2 heq
    rw [hd] at heq
    injection heq with heq1
    injection heq1 with hc hs
    rw [hc, hs]

theorem dealerLoop_hit_soft17_err (rules : GameRules) (d : Hand) (s : Shoe)
    (e : GameError) (h17 : Hand.value d = 17) (hsoft : Hand.isSoft d = true)
    (hrule : rules.dealerHitsSoft17 = true) (hd : s.dealCard = .error e) :
    dealerLoop rules d s = .error (e, d, s) := by
  conv_lhs => unfold dealerLoop
  rw [if_pos (by omega), if_pos ⟨h17, hsoft, hrule⟩]
  split
  · rename_i e2 heq
    rw [hd] at heq
    injection heq with he
    rw [he]
  · rename_i c2 s2 heq
    rw [hd] at heq
    cases heq

theorem dealerLoop_post_aux (rules : GameRules) : ∀ (n : Nat) (s : Shoe) (d d' : Hand)
    (s' : Shoe), s.cards.length ≤ n → dealerLoop rules d s = .ok (d', s') →
    17 ≤ Hand.value d' ∧
      ¬(Hand.value d' = 17 ∧ Hand.isSoft d' = true ∧ rules.dealerHitsSoft17 = true) := by
  intro n
  induction n with
  | zero =>
    intro s d d' s' hlen h
    by_cases h17 : 17 ≤ Hand.value d
    · by_cases hns : Hand.value d = 17 ∧ Hand.isSoft d = true ∧ rules.dealerHitsSoft17 = true
      · cases hd : s.dealCard with
        | error e =>
          rw [dealerLoop_hit_soft17_err rules d s e hns.1 hns.2.1 hns.2.2 hd] at h
          cases h
        | ok p =>
          have := Shoe.dealCard_length_lt s p.1 p.2 (by rw [hd])
          omega
      · rw [dealerLoop_stand rules d s h17 hns] at h
        injection h with h1
        injection h1 with hde hs
        rw [← hde]
        exact ⟨h17, hns⟩
    · cases hd : s.dealCard with
      | error e =>
        rw [dealerLoop_hit_low_err rules d s e (by omega) hd] at h
        cases h
      | ok p =>
        have := Shoe.dealCard_length_lt s p.1 p.2 (by rw [hd])
        omega
  | succ n ih =>
    intro s d d' s' hlen h
    by_cases h17 : 17 ≤ Hand.value d
    · by_cases hns : Hand.value d = 17 ∧ Hand.isSoft d = true ∧ rules.dealerHitsSoft17 = true
      · cases hd : s.dealCard with
        | error e =>
          rw [dealerLoop_hit_soft17_err rules d s e hns.1 hns.2.1 hns.2.2 hd] at h
          cases h
        | ok p =>
          rw [dealerLoop_hit_soft17_ok rules d s p.1 p.2 hns.1 hns.2.1 hns.2.2
            (by rw [hd])] at h
          have hlt := Shoe.dealCard_length_lt s p.1 p.2 (by rw [hd])
          exact ih p.2 (d ++ [p.1]) d' s' (by omega) h
      · rw [dealerLoop_stand rules d s h17 hns] at h
        injection h with h1
        injection h1 with hde hs
        rw [← hde]
        exact ⟨h17, hns⟩
    · cases hd : s.dealCard with
      | error e =>
        rw [dealerLoop_hit_low_err rules d s e (by omega) hd] at h
        cases h
      | ok p =>
        rw [dealerLoop_hit_low_ok rules d s p.1 p.2 (by omega) (by rw [hd])] at h
        have hlt := Shoe.dealCard_length_lt s p.1 p.2 (by rw [hd])
        exact ih p.2 (d ++ [p.1]) d' s' (by omega) h

theorem dealerLoop_post (rules : GameRules) (s : Shoe) (d d' : Hand) (s' : Shoe)
    (h : dealerLoop rules d s = .ok (d', s')) :
    17 ≤ Hand.value d' ∧
      ¬(Hand.value d' = 17 ∧ Hand.isSoft d' = true ∧ rules.dealerHitsSoft17 = true) :=
  dealerLoop_post_aux rules s.cards.length s d d' s' le_rfl h

theorem playerStand_ok_elim (g : Game) (g' : Game) (h : playerStand g = .ok g') :
    g.gameOver = false ∧ g.player ≠ [] ∧
      ∃ d' s', dealerPlay g.rules g.player g.dealer g.shoe = .ok (d', s') ∧
        g' = { g with
               dealer := d'
               shoe := s'
               gameOver := true
               result := some (determineWinner g.rules g.player d') } := by
  unfold playerStand at h
  by_cases h1 : g.gameOver = true
  · simp [h1] at h
  · by_cases h2 : g.player.length = 0
    · rw [if_neg h1, if_pos h2] at h
      cases h
    · rw [if_neg h1, if_neg h2] at h
      refine ⟨by simpa using h1, by simpa using h2, ?_⟩
      cases hd : dealerPlay g.rules g.player g.dealer g.shoe with
      | error p =>
        rw [hd] at h
        cases h
      | ok p =>
        rw [hd] at h
        injection h with hg
        exact ⟨p.1, p.2, rfl, hg.symm⟩

end Game

theorem dealInitialCards_ok_elim (g g' : Game) (h : Game.dealInitialCards g = .ok g') :
    g.player = [] ∧ g.dealer = [] ∧
    ∃ c1 c2 c3 c4 rest, g.shoe.cards = c1 :: c2 :: c3 :: c4 :: rest ∧
      g'.player = [c1, c3] ∧ g'.dealer = [c2, c4] := by
  unfold Game.dealInitialCards at h
  by_cases h1 : 0 < g.player.length ∨ 0 < g.dealer.length
  · rw [if_pos h1] at h; cases h
  · rw [if_neg h1] at h
    push_neg at h1
    have hp0 : g.player = [] := List.eq_nil_of_length_eq_zero (by omega)
    have hd0 : g.dealer = [] := List.eq_nil_of_length_eq_zero (by omega)
    by_cases h2 : g.shoe.needsShuffle = true
    · rw [if_pos h2] at h; cases h
    · rw [if_neg h2] at h
      refine ⟨hp0, hd0, ?_⟩
      cases hd1 : g.shoe.dealCard with
      | error e => rw [hd1] at h; cases h
      | ok p1 =>
        obtain ⟨c1, s1⟩ := p1
        rw [hd1] at h
        simp only [] at h
        obtain ⟨-, r1, hc1, hs1⟩ := shoe_dealCard_ok_elim _ _ _ hd1
        cases hd2 : s1.dealCard with
        | error e => rw [hd2] at h; cases h
        | ok p2 =>
          obtain ⟨c2, s2⟩ := p2
          rw [hd2] at h
          simp only [] at h
          obtain ⟨-, r2, hc2, hs2⟩ := shoe_dealCard_ok_elim _ _ _ hd2
          cases hd3 : s2.dealCard with
          | error e => rw [hd3] at h; cases h
          | ok p3 =>
            obtain ⟨c3, s3⟩ := p3
            rw [hd3] at h
            simp only [] at h
            obtain ⟨-, r3, hc3, hs3⟩ := shoe_dealCard_ok_elim _ _ _ hd3
            cases hd4 : s3.dealCard with
            | error e => rw [hd4] at h; cases h
            | ok p4 =>
              obtain ⟨c4, s4⟩ := p4
              rw [hd4] at h
              simp only [] at h
              obtain ⟨-, r4, hc4, hs4⟩ := shoe_dealCard_ok_elim _ _ _ hd4
              refine ⟨c1, c2, c3, c4, r4, ?_, ?_, ?_⟩
              · rw [hc1]
                have e1 : r1 = c2 :: r2 := by
                  have hx : s1.cards = r1 := by rw [hs1]
                  rw [← hx, hc2]
                rw [e1]
                have e2 : r2 = c3 :: r3 := by
                  have hx : s2.cards = r2 := by rw [hs2]
                  rw [← hx, hc3]
                rw [e2]
                have e3 : r3 = c4 :: r4 := by
                  have hx : s3.cards = r3 := by rw [hs3]
                  rw [← hx, hc4]
                rw [e3]
              · split_ifs at h <;>
                  (injection h with hg; rw [← hg]; simp [hp0])
              · split_ifs at h <;>
                  (injection h with hg; rw [← hg]; simp [hd0])

/-- C5: every successful `deal_initial_cards` on the counting engine deals
player, dealer, player, dealer from the front of the (possibly just
shuffled) shoe, and updates the counter with exactly three cards — both
player cards and the dealer's first card, in that order — so the running
count never includes the dealer hole card's weight, and the cards-seen
counter advances by exactly 3; this holds also when a natural blackjack
ends the hand at the deal. -/
theorem counting_deal_reveals_three (sys : Card → Int) (g : CGame) (ord : List Card)
    (g' : CGame) (h : countingDealInitialCards sys g ord = .ok g') :
    ∃ c1 c2 c3 c4 rest,
      (effShoe g ord).cards = c1 :: c2 :: c3 :: c4 :: rest ∧
      g'.game.player = [c1, c3] ∧
      g'.game.dealer = [c2, c4] ∧
      g'.counter.runningCount
        = (effCounter g).runningCount + sys c1 + sys c3 + sys c2 ∧
      g'.counter.cardsSeen = (effCounter g).cardsSeen + 3 := by
  unfold countingDealInitialCards at h
  simp only [] at h
  cases hd : Game.dealInitialCards
      { rules := g.game.rules,
        shoe := if g.game.shoe.needsShuffle = true then g.game.shoe.shuffleWith ord
                else g.game.shoe,
        player := g.game.player, dealer := g.game.dealer,
        gameOver := g.game.gameOver, result := g.game.result } with
  | error p => rw [hd] at h; cases h
  | ok gb =>
    rw [hd] at h
    simp only [] at h
    injection h with hg
    obtain ⟨-, -, c1, c2, c3, c4, rest, hcards, hpl, hdl⟩ := dealInitialCards_ok_elim _ _ hd
    refine ⟨c1, c2, c3, c4, rest, hcards, ?_, ?_, ?_, ?_⟩
    · rw [← hg]; exact hpl
    · rw [← hg]; exact hdl
    · rw [← hg]
      simp only [hpl, hdl]
      simp [CardCounter.updateCount, effCounter]
    · rw [← hg]
      simp only [hpl, hdl]
      simp [CardCounter.updateCount, effCounter]

namespace Game

theorem playerHit_error_elim (g : Game) (e : GameError) (g' : Game)
    (h : playerHit g = .error (e, g')) : g' = g := by
  unfold playerHit at h
  by_cases h1 : g.gameOver = true
  · rw [if_pos h1] at h
    injection h with hp
    injection hp with he hg
    rw [hg]
  · rw [if_neg h1] at h
    by_cases h2 : g.player.length = 0
    · rw [if_pos h2] at h
      injection h with hp
      injection hp with he hg
      rw [hg]
    · rw [if_neg h2] at h
      cases hd : g.shoe.dealCard with
      | error e2 =>
        rw [hd] at h
        injection h with hp
        injection hp with he hg
        rw [hg]
      | ok p =>
        rw [hd] at h
        simp only [] at h
        split_ifs at h <;> cases h

theorem playerSurrender_error_elim (g : Game) (e : GameError) (g' : Game)
    (h : playerSurrender g = .error (e, g')) : g' = g := by
  unfold playerSurrender at h
  split_ifs at h <;> first
    | (injection h with hp; injection hp with he hg; rw [hg])
    | cases h

theorem playerStand_error_elim (g : Game) (e : GameError) (g' : Game)
    (h : playerStand g = .error (e, g')) :
    g'.player = g.player ∧ g'.gameOver = g.gameOver ∧ g'.result = g.result := by
  unfold playerStand at h
  by_cases h1 : g.gameOver = true
  · rw [if_pos h1] at h
    injection h with hp
    injection hp with he hg
    rw [hg]
    exact ⟨rfl, rfl, rfl⟩
  · rw [if_neg h1] at h
    by_cases h2 : g.player.length = 0
    · rw [if_pos h2] at h
      injection h with hp
      injection hp with he hg
      rw [hg]
      exact ⟨rfl, rfl, rfl⟩
    · rw [if_neg h2] at h
      cases hd : dealerPlay g.rules g.player g.dealer g.shoe with
      | error p =>
        obtain ⟨e2, d2, s2⟩ := p
        rw [hd] at h
        simp only [] at h
        injection h with hp
        injection hp with he hg
        rw [← hg]
        exact ⟨rfl, rfl, rfl⟩
      | ok p =>
        rw [hd] at h
        cases h

theorem dealInitialCards_error_elim (g : Game) (e : GameError) (g' : Game)
    (h : dealInitialCards g = .error (e, g')) :
    g'.gameOver = g.gameOver ∧ g'.result = g.result := by
  unfold dealInitialCards at h
  by_cases h1 : 0 < g.player.length ∨ 0 < g.dealer.length
  · rw [if_pos h1] at h
    injection h with hp
    injection hp with he hg
    rw [hg]
    exact ⟨rfl, rfl⟩
  · rw [if_neg h1] at h
    by_cases h2 : g.shoe.needsShuffle = true
    · rw [if_pos h2] at h
      injection h with hp
      injection hp with he hg
      rw [hg]
      exact ⟨rfl, rfl⟩
    · rw [if_neg h2] at h
      cases hd1 : g.shoe.dealCard with
      | error e1 =>
        rw [hd1] at h
        injection h with hp
        injection hp with he hg
        rw [hg]
        exact ⟨rfl, rfl⟩
      | ok p1 =>
        obtain ⟨c1, s1⟩ := p1
        rw [hd1] at h
        simp only [] at h
        cases hd2 : s1.dealCard with
        | error e2 =>
          rw [hd2] at h
          injection h with hp
          injection hp with he hg
          rw [← hg]
          exact ⟨rfl, rfl⟩
        | ok p2 =>
          obtain ⟨c2, s2⟩ := p2
          rw [hd2] at h
          simp only [] at h
          cases hd3 : s2.dealCard with
          | error e3 =>
            rw [hd3] at h
            injection h with hp
            injection hp with he hg
            rw [← hg]
            exact ⟨rfl, rfl⟩
          | ok p3 =>
            obtain ⟨c3, s3⟩ := p3
            rw [hd3] at h
            simp only [] at h
            cases hd4 : s3.dealCard with
            | error e4 =>
              rw [hd4] at h
              injection h with hp
              injection hp with he hg
              rw [← hg]
              exact ⟨rfl, rfl⟩
            | ok p4 =>
              obtain ⟨c4, s4⟩ := p4
              rw [hd4] at h
              simp only [] at h
              split_ifs at h <;> cases h

theorem playerDouble_error_elim (g : Game) (e : GameError) (g' : Game)
    (h : playerDouble g = .error (e, g')) :
    g'.gameOver = g.gameOver ∧ g'.result = g.result := by
  unfold playerDouble at h
  by_cases h1 : g.gameOver = true
  · rw [if_pos h1] at h
    injection h with hp
    injection hp with he hg
    rw [hg]
    exact ⟨rfl, rfl⟩
  · rw [if_neg h1] at h
    by_cases h2 : canDouble g = false
    · rw [if_pos h2] at h
      injection h with hp
      injection hp with he hg
      rw [hg]
      exact ⟨rfl, rfl⟩
    · rw [if_neg h2] at h
      cases hd : g.shoe.dealCard with
      | error e1 =>
        rw [hd] at h
        injection h with hp
        injection hp with he hg
        rw [hg]
        exact ⟨rfl, rfl⟩
      | ok p =>
        obtain ⟨c, s1⟩ := p
        rw [hd] at h
        simp only [] at h
        by_cases hb : Hand.isBust (g.player ++ [c]) = true
        · rw [if_pos hb] at h
          cases h
        · rw [if_neg hb] at h
          cases hdp : dealerPlay g.rules (g.player ++ [c]) g.dealer s1 with
          | error p2 =>
            obtain ⟨e2, d2, s2⟩ := p2
            rw [hdp] at h
            simp only [] at h
            injection h with hp
            injection hp with he hg
            rw [← hg]
            exact ⟨rfl, rfl⟩
          | ok p2 =>
            rw [hdp] at h
            simp only [] at h
            cases h

end Game

/-- Spec-side rendering of the six-way outcome rule of claim C2: player
bust, dealer bust, both blackjack, player blackjack only, dealer blackjack
only, then numeric comparison. -/
def sixWayOutcome (p d : Hand) : Outcome :=
  if Hand.isBust p = true then .loss
  else if Hand.isBust d = true then .win
  else if Hand.isBlackjack p = true ∧ Hand.isBlackjack d = true then .push
  else if Hand.isBlackjack p = true ∧ ¬ Hand.isBlackjack d = true then .blackjack
  else if Hand.isBlackjack d = true ∧ ¬ Hand.isBlackjack p = true then .loss
  else if Hand.value p > Hand.value d then .win
  else if Hand.value p < Hand.value d then .loss
  else .push

theorem determineWinner_outcome_eq (rules : GameRules) (p d : Hand) :
    (Game.determineWinner rules p d).outcome = sixWayOutcome p d := by
  simp only [Game.determineWinner, sixWayOutcome]
  split_ifs <;> rfl

/-- Rules with the dealer standing on soft 17. -/
def s17Rules : GameRules := { defaultRules with dealerHitsSoft17 := false }

/-- C2: the dealer-play loop is deterministic — below 17 the dealer hits;
on exactly soft 17 the dealer hits iff `dealer_hits_soft_17`; on hard 17 or
soft 17 under the stand rule (and any higher total) the dealer stands, and
every successfully finished loop ends in such a standing state; a
successful `player_stand` marks the game over with the result computed by
`_determine_winner`, whose outcome is exactly the six-way rule (player
bust, dealer bust, both blackjack, player blackjack only, dealer blackjack
only, numeric comparison). -/
theorem stand_dealer_play_spec (rules : GameRules) :
    (∀ d s, 17 ≤ Hand.value d →
      ¬(Hand.value d = 17 ∧ Hand.isSoft d = true ∧ rules.dealerHitsSoft17 = true) →
      Game.dealerLoop rules d s = .ok (d, s)) ∧
    (∀ d s c s', Hand.value d < 17 → s.dealCard = .ok (c, s') →
      Game.dealerLoop rules d s = Game.dealerLoop rules (d ++ [c]) s') ∧
    (∀ d s c s', Hand.value d = 17 → Hand.isSoft d = true →
      rules.dealerHitsSoft17 = true → s.dealCard = .ok (c, s') →
      Game.dealerLoop rules d s = Game.dealerLoop rules (d ++ [c]) s') ∧
    (∀ d s, Hand.value d = 17 → Hand.isSoft d = true → rules.dealerHitsSoft17 = false →
      Game.dealerLoop rules d s = .ok (d, s)) ∧
    (∀ d s d' s', Game.dealerLoop rules d s = .ok (d', s') →
      17 ≤ Hand.value d' ∧
        ¬(Hand.value d' = 17 ∧ Hand.isSoft d' = true ∧ rules.dealerHitsSoft17 = true)) ∧
    (∀ g g' : Game, g.rules = rules → Game.playerStand g = .ok g' →
      g'.gameOver = true ∧
      ∃ d' s', Game.dealerPlay rules g.player g.dealer g.shoe = .ok (d', s') ∧
        g'.dealer = d' ∧ g'.shoe = s' ∧
        g'.result = some (Game.determineWinner rules g.player d')) ∧
    (∀ p d, (Game.determineWinner rules p d).outcome = sixWayOutcome p d) := by
  refine ⟨Game.dealerLoop_stand rules,
    fun d s c s' h hd => Game.dealerLoop_hit_low_ok rules d s c s' h hd,
    fun d s c s' h17 hs hr hd => Game.dealerLoop_hit_soft17_ok rules d s c s' h17 hs hr hd,
    fun d s h17 hs hr => Game.dealerLoop_stand rules d s (by omega)
      (by rintro ⟨-, -, h⟩; rw [hr] at h; cases h),
    fun d s d' s' h => Game.dealerLoop_post rules s d d' s' h,
    fun g g' hr h => ?_,
    determineWinner_outcome_eq rules⟩
  obtain ⟨-, -, d', s', hdp, hg'⟩ := Game.playerStand_ok_elim g g' h
  subst hr
  exact ⟨by rw [hg'], d', s', hdp, by rw [hg'], by rw [hg'], by rw [hg']⟩

/-- Witness for C2, exercising every part on concrete data: a hard 17
stands; a 16 hits; a soft 17 hits under H17 and stands under S17; the
standing postcondition holds for the hard-17 run; a concrete stand
transition ends the game with the dealer-played result; and the six-way
outcome of 19 versus 17 is a win. -/
theorem stand_dealer_play_spec_witness :
    Game.dealerLoop defaultRules [sKing, sSeven] ⟨1, 1/2, [], 0⟩
        = .ok ([sKing, sSeven], ⟨1, 1/2, [], 0⟩) ∧
    Game.dealerLoop defaultRules [sTen, sSix] ⟨1, 1/2, [sFive], 0⟩
        = Game.dealerLoop defaultRules [sTen, sSix, sFive] ⟨1, 1/2, [], 1⟩ ∧
    Game.dealerLoop defaultRules [sAce, sSix] ⟨1, 1/2, [sFive], 0⟩
        = Game.dealerLoop defaultRules [sAce, sSix, sFive] ⟨1, 1/2, [], 1⟩ ∧
    Game.dealerLoop s17Rules [sAce, sSix] ⟨1, 1/2, [], 0⟩
        = .ok ([sAce, sSix], ⟨1, 1/2, [], 0⟩) ∧
    (17 ≤ Hand.value [sKing, sSeven] ∧
      ¬(Hand.value [sKing, sSeven] = 17 ∧ Hand.isSoft [sKing, sSeven] = true ∧
        defaultRules.dealerHitsSoft17 = true)) ∧
    (∃ g' : Game,
      Game.playerStand ⟨defaultRules, ⟨1, 1/2, [], 0⟩, [sTen, sNine], [sKing, sSeven],
          false, none⟩ = .ok g' ∧ g'.gameOver = true) ∧
    (Game.determineWinner defaultRules [sTen, sNine] [sKing, sSeven]).outcome
        = sixWayOutcome [sTen, sNine] [sKing, sSeven] := by
  have hdl : Game.dealerLoop defaultRules [sKing, sSeven] ⟨1, 1/2, [], 0⟩
      = .ok ([sKing, sSeven], ⟨1, 1/2, [], 0⟩) :=
    (stand_dealer_play_spec defaultRules).1 [sKing, sSeven] _ (by decide) (by decide)
  have hd1 : Shoe.dealCard ⟨1, 1/2, [sFive], 0⟩ = .ok (sFive, ⟨1, 1/2, [], 1⟩) :=
    shoeHalf_deal sFive [] 0 (by omega)
  have hps : Game.playerStand ⟨defaultRules, ⟨1, 1/2, [], 0⟩, [sTen, sNine],
      [sKing, sSeven], false, none⟩ = .ok ⟨defaultRules, ⟨1, 1/2, [], 0⟩, [sTen, sNine],
        [sKing, sSeven], true,
        some (Game.determineWinner defaultRules [sTen, sNine] [sKing, sSeven])⟩ := by
    unfold Game.playerStand Game.dealerPlay
    rw [if_neg (by decide), if_neg (by decide), if_neg (by decide), hdl]
  refine ⟨hdl,
    (stand_dealer_play_spec defaultRules).2.1 [sTen, sSix] _ sFive _ (by decide) hd1,
    (stand_dealer_play_spec defaultRules).2.2.1 [sAce, sSix] _ sFive _ (by decide)
      (by decide) (by decide) hd1,
    (stand_dealer_play_spec s17Rules).2.2.2.1 [sAce, sSix] _ (by decide) (by decide)
      (by decide),
    (stand_dealer_play_spec defaultRules).2.2.2.2.1 [sKing, sSeven] ⟨1, 1/2, [], 0⟩
      [sKing, sSeven] ⟨1, 1/2, [], 0⟩ hdl,
    ⟨_, hps, ((stand_dealer_play_spec defaultRules).2.2.2.2.2.1 _ _ rfl hps).1⟩,
    (stand_dealer_play_spec defaultRules).2.2.2.2.2.2 [sTen, sNine] [sKing, sSeven]⟩

/-- Counterexample for C9: `deal_initial_cards` on a shoe one card short of
its penetration threshold deals the player's first card, then fails with
the penetration error on the dealer's card — leaving the player hand and
the shoe mutated.  The engine is not left in its prior state. -/
theorem engine_partial_failure_counterexample :
    Game.dealInitialCards
        ⟨defaultRules, ⟨1, 1/2, [sTwo, sThree, sFour, sFive, sSix], 25⟩, [], [], false, none⟩
      = .error (.penetrationReached,
          ⟨defaultRules, ⟨1, 1/2, [sThree, sFour, sFive, sSix], 26⟩, [sTwo], [], false, none⟩) ∧
    (⟨defaultRules, ⟨1, 1/2, [sThree, sFour, sFive, sSix], 26⟩, [sTwo], [], false, none⟩ : Game)
      ≠ ⟨defaultRules, ⟨1, 1/2, [sTwo, sThree, sFour, sFive, sSix], 25⟩, [], [], false, none⟩ := by
  constructor
  · unfold Game.dealInitialCards
    simp only [shoeHalf_needsShuffle_lt [sTwo, sThree, sFour, sFive, sSix] 25 (by omega),
      shoeHalf_deal sTwo [sThree, sFour, sFive, sSix] 25 (by omega),
      (shoe_dealCard_spec ⟨1, 1/2, [sThree, sFour, sFive, sSix], 26⟩).1
        (shoeHalf_needsShuffle_26 _),
      List.length_nil, List.nil_append, Bool.false_eq_true, if_false, lt_irrefl, or_self]
  · intro hEq
    exact absurd (congrArg Game.player hEq) (by simp)

namespace Game

theorem dealInitialCards_guard_started (g : Game)
    (h : 0 < g.player.length ∨ 0 < g.dealer.length) :
    dealInitialCards g = .error (.gameAlreadyStarted, g) := by
  unfold dealInitialCards
  rw [if_pos h]

theorem dealInitialCards_guard_shuffle (g : Game)
    (h1 : ¬(0 < g.player.length ∨ 0 < g.dealer.length))
    (h2 : g.shoe.needsShuffle = true) :
    dealInitialCards g = .error (.shoeNeedsShuffle, g) := by
  unfold dealInitialCards
  rw [if_neg h1, if_pos h2]

theorem playerHit_guard_over (g : Game) (h : g.gameOver = true) :
    playerHit g = .error (.gameIsOver, g) := by
  unfold playerHit
  rw [if_pos h]

theorem playerStand_guard_over (g : Game) (h : g.gameOver = true) :
    playerStand g = .error (.gameIsOver, g) := by
  unfold playerStand
  rw [if_pos h]

theorem playerDouble_guard_over (g : Game) (h : g.gameOver = true) :
    playerDouble g = .error (.gameIsOver, g) := by
  unfold playerDouble
  rw [if_pos h]

theorem playerSurrender_guard_over (g : Game) (h : g.gameOver = true) :
    playerSurrender g = .error (.gameIsOver, g) := by
  unfold playerSurrender
  rw [if_pos h]

theorem playerHit_guard_notStarted (g : Game) (h1 : g.gameOver = false)
    (h2 : g.player.length = 0) :
    playerHit g = .error (.gameNotStarted, g) := by
  unfold playerHit
  rw [if_neg (by simp [h1]), if_pos h2]

theorem playerStand_guard_notStarted (g : Game) (h1 : g.gameOver = false)
    (h2 : g.player.length = 0) :
    playerStand g = .error (.gameNotStarted, g) := by
  unfold playerStand
  rw [if_neg (by simp [h1]), if_pos h2]

theorem playerDouble_guard_cannot (g : Game) (h1 : g.gameOver = false)
    (h2 : canDouble g = false) :
    playerDouble g = .error (.cannotDouble, g) := by
  unfold playerDouble
  rw [if_neg (by simp [h1]), if_pos h2]

theorem playerSurrender_guard_cannot (g : Game) (h1 : g.gameOver = false)
    (h2 : canSurrender g = false) :
    playerSurrender g = .error (.cannotSurrender, g) := by
  unfold playerSurrender
  rw [if_neg (by simp [h1]), if_pos h2]

end Game

/-- C9 amended: every precondition failure (game already started, shoe
needs shuffling at entry, game over, game not started, cannot double,
cannot surrender) raises its distinguishing error with the engine left
exactly in its prior state; failing `hit` and `surrender` calls always
leave the engine in its prior state; a failing `stand` preserves the
player hand, the game-over flag and the result (the dealer hand and shoe
may have advanced); failing `deal_initial_cards` and `double` preserve the
game-over flag and the result (already-dealt cards stay in the hands and
the shoe advances). -/
theorem engine_failure_atomicity (g : Game) (e : GameError) (g' : Game) :
    (Game.playerHit g = .error (e, g') → g' = g) ∧
    (Game.playerSurrender g = .error (e, g') → g' = g) ∧
    (Game.playerStand g = .error (e, g') →
      g'.player = g.player ∧ g'.gameOver = g.gameOver ∧ g'.result = g.result) ∧
    (Game.dealInitialCards g = .error (e, g') →
      g'.gameOver = g.gameOver ∧ g'.result = g.result) ∧
    (Game.playerDouble g = .error (e, g') →
      g'.gameOver = g.gameOver ∧ g'.result = g.result) ∧
    ((0 < g.player.length ∨ 0 < g.dealer.length) →
      Game.dealInitialCards g = .error (.gameAlreadyStarted, g)) ∧
    (¬(0 < g.player.length ∨ 0 < g.dealer.length) → g.shoe.needsShuffle = true →
      Game.dealInitialCards g = .error (.shoeNeedsShuffle, g)) ∧
    (g.gameOver = true →
      Game.playerHit g = .error (.gameIsOver, g) ∧
      Game.playerStand g = .error (.gameIsOver, g) ∧
      Game.playerDouble g = .error (.gameIsOver, g) ∧
      Game.playerSurrender g = .error (.gameIsOver, g)) ∧
    (g.gameOver = false → g.player.length = 0 →
      Game.playerHit g = .error (.gameNotStarted, g) ∧
      Game.playerStand g = .error (.gameNotStarted, g)) ∧
    (g.gameOver = false → Game.canDouble g = false →
      Game.playerDouble g = .error (.cannotDouble, g)) ∧
    (g.gameOver = false → Game.canSurrender g = false →
      Game.playerSurrender g = .error (.cannotSurrender, g)) :=
  ⟨Game.playerHit_error_elim g e g', Game.playerSurrender_error_elim g e g',
   Game.playerStand_error_elim g e g', Game.dealInitialCards_error_elim g e g',
   Game.playerDouble_error_elim g e g',
   Game.dealInitialCards_guard_started g,
   Game.dealInitialCards_guard_shuffle g,
   fun h => ⟨Game.playerHit_guard_over g h, Game.playerStand_guard_over g h,
     Game.playerDouble_guard_over g h, Game.playerSurrender_guard_over g h⟩,
   fun h1 h2 => ⟨Game.playerHit_guard_notStarted g h1 h2,
     Game.playerStand_guard_notStarted g h1 h2⟩,
   Game.playerDouble_guard_cannot g,
   Game.playerSurrender_guard_cannot g⟩

/-- Witness for C9 amended: a `stand` that lets the dealer draw one card
and then hits the penetration threshold fails while preserving the player
hand, the game-over flag and the result even though the dealer hand and
shoe advanced; a `hit` on a finished game and a `double` on a three-card
hand fail with the engine exactly unchanged. -/
theorem engine_failure_atomicity_witness :
    (Game.playerStand
        ⟨defaultRules, ⟨1, 1/2, [sFive], 25⟩, [sTen, sNine], [sTwo, sThree], false, none⟩
      = .error (.penetrationReached,
          ⟨defaultRules, ⟨1, 1/2, [], 26⟩, [sTen, sNine], [sTwo, sThree, sFive],
            false, none⟩) ∧
      (⟨defaultRules, ⟨1, 1/2, [], 26⟩, [sTen, sNine], [sTwo, sThree, sFive], false, none⟩
          : Game).player
        = (⟨defaultRules, ⟨1, 1/2, [sFive], 25⟩, [sTen, sNine], [sTwo, sThree], false,
            none⟩ : Game).player ∧
      (⟨defaultRules, ⟨1, 1/2, [], 26⟩, [sTen, sNine], [sTwo, sThree, sFive], false, none⟩
          : Game).gameOver
        = (⟨defaultRules, ⟨1, 1/2, [sFive], 25⟩, [sTen, sNine], [sTwo, sThree], false,
            none⟩ : Game).gameOver ∧
      (⟨defaultRules, ⟨1, 1/2, [], 26⟩, [sTen, sNine], [sTwo, sThree, sFive], false, none⟩
          : Game).result
        = (⟨defaultRules, ⟨1, 1/2, [sFive], 25⟩, [sTen, sNine], [sTwo, sThree], false,
            none⟩ : Game).result) ∧
    Game.playerHit ⟨defaultRules, ⟨1, 1/2, [], 0⟩, [sTen], [sNine], true, none⟩
      = .error (.gameIsOver,
          ⟨defaultRules, ⟨1, 1/2, [], 0⟩, [sTen], [sNine], true, none⟩) ∧
    Game.playerDouble
        ⟨defaultRules, ⟨1, 1/2, [], 0⟩, [sTwo, sThree, sFour], [sNine], false, none⟩
      = .error (.cannotDouble,
          ⟨defaultRules, ⟨1, 1/2, [], 0⟩, [sTwo, sThree, sFour], [sNine], false, none⟩) := by
  have hL : Game.dealerLoop defaultRules [sTwo, sThree] ⟨1, 1/2, [sFive], 25⟩
      = .error (.penetrationReached, [sTwo, sThree, sFive], ⟨1, 1/2, [], 26⟩) := by
    rw [Game.dealerLoop_hit_low_ok defaultRules [sTwo, sThree] ⟨1, 1/2, [sFive], 25⟩ sFive
      ⟨1, 1/2, [], 26⟩ (by decide) (shoeHalf_deal sFive [] 25 (by omega))]
    exact Game.dealerLoop_hit_low_err defaultRules [sTwo, sThree, sFive] ⟨1, 1/2, [], 26⟩
      .penetrationReached (by decide)
      ((shoe_dealCard_spec _).1 (shoeHalf_needsShuffle_26 _))
  have hst : Game.playerStand
      ⟨defaultRules, ⟨1, 1/2, [sFive], 25⟩, [sTen, sNine], [sTwo, sThree], false, none⟩
      = .error (.penetrationReached,
          ⟨defaultRules, ⟨1, 1/2, [], 26⟩, [sTen, sNine], [sTwo, sThree, sFive],
            false, none⟩) := by
    unfold Game.playerStand Game.dealerPlay
    rw [if_neg (by decide), if_neg (by decide), if_neg (by decide), hL]
  refine ⟨⟨hst, (engine_failure_atomicity _ .penetrationReached _).2.2.1 hst⟩, ?_, ?_⟩
  · exact ((engine_failure_atomicity
      ⟨defaultRules, ⟨1, 1/2, [], 0⟩, [sTen], [sNine], true, none⟩ .gameIsOver
      ⟨defaultRules, ⟨1, 1/2, [], 0⟩, [sTen], [sNine], true, none⟩).2.2.2.2.2.2.2.1
      rfl).1
  · exact (engine_failure_atomicity
      ⟨defaultRules, ⟨1, 1/2, [], 0⟩, [sTwo, sThree, sFour], [sNine], false, none⟩
      .cannotDouble
      ⟨defaultRules, ⟨1, 1/2, [], 0⟩, [sTwo, sThree, sFour], [sNine], false,
        none⟩).2.2.2.2.2.2.2.2.2.1 rfl (by decide)

/-- Witness for C5: a deal from a fresh half-penetration shoe gives the
player ace-king (an immediate blackjack) and the dealer five-six; the
counter sees exactly the two player cards and the dealer upcard
(Hi-Lo: −1 −1 +1), never the hole card. -/
theorem counting_deal_reveals_three_witness :
    ∃ c1 c2 c3 c4 rest,
      (effShoe ⟨⟨defaultRules, ⟨1, 1/2, [sAce, sFive, sKing, sSix, sTwo], 0⟩, [], [],
          false, none⟩, CardCounter.init 1⟩ []).cards = c1 :: c2 :: c3 :: c4 :: rest ∧
      (⟨⟨defaultRules, ⟨1, 1/2, [sTwo], 4⟩, [sAce, sKing], [sFive, sSix], true,
          some (Game.determineWinner defaultRules [sAce, sKing] [sFive, sSix])⟩,
        ⟨1, -1, 3⟩⟩ : CGame).game.player = [c1, c3] ∧
      (⟨⟨defaultRules, ⟨1, 1/2, [sTwo], 4⟩, [sAce, sKing], [sFive, sSix], true,
          some (Game.determineWinner defaultRules [sAce, sKing] [sFive, sSix])⟩,
        ⟨1, -1, 3⟩⟩ : CGame).game.dealer = [c2, c4] ∧
      (⟨⟨defaultRules, ⟨1, 1/2, [sTwo], 4⟩, [sAce, sKing], [sFive, sSix], true,
          some (Game.determineWinner defaultRules [sAce, sKing] [sFive, sSix])⟩,
        ⟨1, -1, 3⟩⟩ : CGame).counter.runningCount
        = (effCounter ⟨⟨defaultRules, ⟨1, 1/2, [sAce, sFive, sKing, sSix, sTwo], 0⟩, [], [],
            false, none⟩, CardCounter.init 1⟩).runningCount
          + hiLoValue c1 + hiLoValue c3 + hiLoValue c2 ∧
      (⟨⟨defaultRules, ⟨1, 1/2, [sTwo], 4⟩, [sAce, sKing], [sFive, sSix], true,
          some (Game.determineWinner defaultRules [sAce, sKing] [sFive, sSix])⟩,
        ⟨1, -1, 3⟩⟩ : CGame).counter.cardsSeen
        = (effCounter ⟨⟨defaultRules, ⟨1, 1/2, [sAce, sFive, sKing, sSix, sTwo], 0⟩, [], [],
            false, none⟩, CardCounter.init 1⟩).cardsSeen + 3 := by
  have hbase : Game.dealInitialCards
      ⟨defaultRules, ⟨1, 1/2, [sAce, sFive, sKing, sSix, sTwo], 0⟩, [], [], false, none⟩
      = .ok ⟨defaultRules, ⟨1, 1/2, [sTwo], 4⟩, [sAce, sKing], [sFive, sSix], true,
          some (Game.determineWinner defaultRules [sAce, sKing] [sFive, sSix])⟩ := by
    unfold Game.dealInitialCards
    simp only [shoeHalf_needsShuffle_lt [sAce, sFive, sKing, sSix, sTwo] 0 (by omega),
      shoeHalf_deal sAce [sFive, sKing, sSix, sTwo] 0 (by omega),
      shoeHalf_deal sFive [sKing, sSix, sTwo] 1 (by omega),
      shoeHalf_deal sKing [sSix, sTwo] 2 (by omega),
      shoeHalf_deal sSix [sTwo] 3 (by omega),
      List.length_nil, List.nil_append, Bool.false_eq_true, if_false, lt_irrefl, or_self]
    have hbj : Hand.isBlackjack [sAce, sKing] = true := by decide
    simp [hbj]
  have hcd : countingDealInitialCards hiLoValue
      ⟨⟨defaultRules, ⟨1, 1/2, [sAce, sFive, sKing, sSix, sTwo], 0⟩, [], [], false, none⟩,
        CardCounter.init 1⟩ []
      = .ok ⟨⟨defaultRules, ⟨1, 1/2, [sTwo], 4⟩, [sAce, sKing], [sFive, sSix], true,
          some (Game.determineWinner defaultRules [sAce, sKing] [sFive, sSix])⟩,
        ⟨1, -1, 3⟩⟩ := by
    unfold countingDealInitialCards
    simp only [shoeHalf_needsShuffle_lt [sAce, sFive, sKing, sSix, sTwo] 0 (by omega),
      Bool.false_eq_true, if_false]
    rw [hbase]
    rfl
  exact counting_deal_reveals_three hiLoValue _ [] _ hcd

end Blackjack
